import Mathlib

set_option maxRecDepth 65536

/-!
Shallow embedding of the GObject-Introspection typelib validator and reader
core (`src/girepository/gitypelib.c`) and proofs about it.

The byte buffer of a typelib is modelled as a `List Nat` (one element per
byte).  Every byte access of the C code goes through `readU8`, which returns
a distinguished `oobRead` error when the index is outside the buffer; in C
such an access would be an out-of-bounds read (undefined behaviour), so
"this validator performs no out-of-bounds access on input `b`" is expressed
as "the model run on `b` does not produce an `oobRead` error".

The C sources validate through a mutable `GError **` plus a context stack
(`ValidateContext`).  Errors are modelled as a structure `TErr` carrying the
error kind (the `GI_TYPELIB_ERROR_*` code), the formatted message, and the
context stack as it stood when the error was raised; the context stack is
threaded as an explicit parameter (the C code always pops before a
successful return and only reads the stack when an error is being reported,
so parameter passing is observationally equivalent to the mutable stack).

The record layouts (field offsets inside `Header`, `DirEntry`, the blob
records, and the `GI_IR_MAGIC` constant) are declared in
`gitypelib-internal.h`, which is not part of the given sources; they are
modelled from the specification (record sizes and field enumerations of
spec sections 3 and 6.1) together with the offsets that `gitypelib.c`
itself pins down via `G_STRUCT_OFFSET` and the `G_STATIC_ASSERT` size table.
All multi-byte fields are little-endian-style `byte0 + 256*byte1 + ...`
(the format is declared native-endian; the concrete packing only has to be
used consistently by the model and by the concrete test buffers).
-/

namespace GITL

/-- A byte buffer (`typelib->data` with `typelib->len = data.length`). -/
abbrev Bytes := List Nat

/-- Error kinds: the five `GI_TYPELIB_ERROR_*` codes of the C sources plus a
model-only `oobRead` marker for byte accesses outside the buffer (undefined
behaviour in C). -/
inductive ErrKind
  | invalid
  | invalidHeader
  | invalidDirectory
  | invalidEntry
  | invalidBlob
  | oobRead
deriving DecidableEq, Repr

/-- A validation error: kind, formatted message, and the context stack
(`ValidateContext.context_stack`, innermost first) at the time the error was
raised. -/
structure TErr where
  kind : ErrKind
  msg : String
  ctx : List String
deriving DecidableEq, Repr

/-- Result type of the modelled validators. -/
abbrev V (α : Type) := Except TErr α

/-- The model error for a byte access outside the buffer: in C this would be
an out-of-bounds read. -/
def oobErr : TErr := ⟨.oobRead, "model: out-of-bounds byte access", []⟩

/-- The ubiquitous bounds-check failure of the C code. -/
def bufShortErr (st : List String) : TErr := ⟨.invalid, "The buffer is too short", st⟩

/-- Truncation to `uint32_t`, for the C expressions computed in 32-bit
unsigned arithmetic. -/
def m32 (n : Nat) : Nat := n % 4294967296

/-- Read one byte; out of range is an out-of-bounds read. -/
def readU8 (d : Bytes) (i : Nat) : V Nat :=
  match d.get? i with
  | some b => .ok b
  | none => .error oobErr

/-- Read a 16-bit little-endian value (C `*(uint16_t *)&data[i]`). -/
def readU16 (d : Bytes) (i : Nat) : V Nat := do
  let b0 ← readU8 d i
  let b1 ← readU8 d (i + 1)
  pure (b0 + 256 * b1)

/-- Read a 32-bit little-endian value (C `*(uint32_t *)&data[i]`). -/
def readU32 (d : Bytes) (i : Nat) : V Nat := do
  let b0 ← readU8 d i
  let b1 ← readU8 d (i + 1)
  let b2 ← readU8 d (i + 2)
  let b3 ← readU8 d (i + 3)
  pure (b0 + 256 * b1 + 65536 * b2 + 16777216 * b3)

/-- Read `n` consecutive bytes starting at `off`. -/
def readBytesN (d : Bytes) : Nat → Nat → V (List Nat)
  | _, 0 => pure []
  | off, n + 1 => do
    let b ← readU8 d off
    let rest ← readBytesN d (off + 1) n
    pure (b :: rest)

/-- Total (default-0) byte read, used to state facts about buffer contents. -/
def getU8 (d : Bytes) (i : Nat) : Nat := d.getD i 0

/-- Total 16-bit read. -/
def getU16 (d : Bytes) (i : Nat) : Nat := getU8 d i + 256 * getU8 d (i + 1)

/-- Total 32-bit read. -/
def getU32 (d : Bytes) (i : Nat) : Nat :=
  getU8 d i + 256 * getU8 d (i + 1) + 65536 * getU8 d (i + 2) + 16777216 * getU8 d (i + 3)

/-- C `is_aligned` (gitypelib.c:464): `offset == ALIGN_VALUE (offset, 4)`,
i.e. the offset is a multiple of 4. -/
def isAligned (off : Nat) : Bool := off % 4 == 0

/-- `GI_IR_MAGIC` (modelled from the fixed 16-byte sentinel of the spec; the
value is the bytes of `"GOBJ\nMETADATA\r\n\032"` from the internal header,
which is not among the given sources). -/
def GI_IR_MAGIC : List Nat := [71, 79, 66, 74, 10, 77, 69, 84, 65, 68, 65, 84, 65, 13, 10, 26]

/-- Allowed identifier bytes: `G_CSET_a_2_z G_CSET_A_2_Z G_CSET_DIGITS "-_"`
(gitypelib.c:518). -/
def isNameByte (b : Nat) : Bool :=
  (65 ≤ b && b ≤ 90) || (97 ≤ b && b ≤ 122) || (48 ≤ b && b ≤ 57) || b == 45 || b == 95

/-- The NUL-terminated byte string starting at `off` (used where the C code
reads a string it has already validated, e.g. `get_string_nofail`). -/
def cstrAt (d : Bytes) (off : Nat) : List Nat := (d.drop off).takeWhile (· ≠ 0)

/-- Render a byte string for inclusion in an error message. -/
def strOfBytes (l : List Nat) : String := String.mk (l.map Char.ofNat)

/-- `gi_type_tag_to_string`.  Modelled from the spec: the function lives in
another source file of the repository; the tag names follow the tag
enumeration of the spec (section 3). -/
def giTypeTagToString (tag : Nat) : String :=
  match tag with
  | 0 => "void"
  | 1 => "boolean"
  | 2 => "int8"
  | 3 => "uint8"
  | 4 => "int16"
  | 5 => "uint16"
  | 6 => "int32"
  | 7 => "uint32"
  | 8 => "int64"
  | 9 => "uint64"
  | 10 => "float"
  | 11 => "double"
  | 12 => "GType"
  | 13 => "utf8"
  | 14 => "filename"
  | 15 => "array"
  | 16 => "interface"
  | 17 => "glist"
  | 18 => "gslist"
  | 19 => "ghash"
  | 20 => "error"
  | 21 => "unichar"
  | _ => "unknown"

/-- The `value_size` table of `validate_constant_blob` (gitypelib.c:1122),
with `sizeof (float) = 4` and `sizeof (double) = 8`. -/
def valueSizeTag (tag : Nat) : Nat :=
  match tag with
  | 1 => 4
  | 2 => 1
  | 3 => 1
  | 4 => 2
  | 5 => 2
  | 6 => 4
  | 7 => 4
  | 8 => 8
  | 9 => 8
  | 10 => 4
  | 11 => 8
  | 21 => 4
  | _ => 0

/-! ### The GType-name prefix matcher (gitypelib.c:273-387)

`gi_typelib_matches_gtype_name_prefix` depends on the typelib only through
the `c_prefix` header string; the matching logic is modelled over the
extracted character list.  (The C identifier ends in a word that this
development cannot use as a suffix of a Lean name, hence the `Pfx`
abbreviation.) -/

/-- `g_ascii_isupper`. -/
def isAsciiUpper (c : Char) : Bool := 'A' ≤ c && c ≤ 'Z'

/-- Read character `i` of a NUL-terminated C string modelled as the list of
its (non-NUL) characters: one past the end reads the NUL terminator. -/
def charAt (s : List Char) (i : Nat) : Char := s.getD i (Char.ofNat 0)

/-- One iteration of the matching loop body (gitypelib.c:369-383): skip if
the name is shorter than the prefix, skip unless the name starts with the
prefix (`strncmp`), then require the following character (possibly the NUL
terminator) to be an uppercase ASCII letter. -/
def pfxMatches (p name : List Char) : Bool :=
  decide (p.length ≤ name.length) && (name.take p.length == p) && isAsciiUpper (charAt name p.length)

/-- `strsplit_iter` over the separator `","` (gitypelib.c:280-331): splits
into the (possibly empty) segments between commas; the empty string yields
one empty segment. -/
def splitComma : List Char → List (List Char)
  | [] => [[]]
  | c :: rest =>
    if c = ',' then [] :: splitComma rest
    else
      match splitComma rest with
      | seg :: segs => (c :: seg) :: segs
      | [] => [[c]]

/-- The `while (strsplit_iter_next ...)` loop of
`gi_typelib_matches_gtype_name_prefix`: sets the result and breaks at the
first matching prefix. -/
def pfxLoop (name : List Char) : List (List Char) → Bool
  | [] => false
  | p :: ps => if pfxMatches p name then true else pfxLoop name ps

/-- `gi_typelib_matches_gtype_name_prefix` (gitypelib.c:344-387), as a
function of the `c_prefix` string of the typelib: a NULL or empty `c_prefix`
returns false immediately, otherwise the comma-separated prefixes are tried
in order. -/
def matchesGtypeNamePfx (cPrefixStr name : List Char) : Bool :=
  if cPrefixStr.length = 0 then false
  else pfxLoop name (splitComma cPrefixStr)

/-- Bytes to characters, for reading the `c_prefix` string out of a buffer. -/
def bytesToChars (l : List Nat) : List Char := l.map Char.ofNat

/-- The buffer-level wrapper of the matcher: extract the `c_prefix` string
(header offset 56) with `gi_typelib_get_string` and match against it. -/
def giTypelibMatchesGtypeNameW (d : Bytes) (name : List Char) : Bool :=
  matchesGtypeNamePfx (bytesToChars (cstrAt d (getU32 d 56))) name

/-! ### Name validation (gitypelib.c:470-529) -/

/-- `validate_name` (gitypelib.c:495): `get_string` bounds check, then
`memchr (name, NUL, 2048)`, then the identifier character-set check.
If no NUL occurs within the first 2048 bytes and the buffer ends before
2048 bytes, the C `memchr` would scan past the end of the buffer: `oobErr`. -/
def validateName (d : Bytes) (st : List String) (msg : String) (off : Nat) : V Unit :=
  if d.length < off then
    .error ⟨.invalid, "Buffer is too short while looking up name", st⟩
  else
    let tail := d.drop off
    if (tail.take 2048).contains 0 then
      let name := tail.takeWhile (· ≠ 0)
      if name.all isNameByte then .ok ()
      else .error ⟨.invalid, "The " ++ msg ++ " contains invalid characters: \x27" ++ strOfBytes name ++ "\x27", st⟩
    else if tail.length < 2048 then .error oobErr
    else .error ⟨.invalid, "The " ++ msg ++ " is too long: " ++ strOfBytes (tail.takeWhile (· ≠ 0)), st⟩

/-! ### Early-exit combinators

The C validators are written as sequences of `if (bad) { g_set_error (...);
return FALSE; }` blocks.  Each such block is modelled by a `guardE`
statement; a C `if (cond) { ... }` block whose body may fail is modelled by
`whenE`, and a two-armed conditional by `iteV`.  These are ordinary
applications, so the monadic terms stay linear. -/

/-- `if (cond) { g_set_error (...); return FALSE; }`. -/
def guardE (c : Prop) [Decidable c] (e : TErr) : V Unit :=
  if c then throw e else pure ()

/-- `if (cond) { body }` where the body may fail. -/
def whenE (c : Prop) [Decidable c] (body : V Unit) : V Unit :=
  if c then body else pure ()

/-- `if (cond) { a } else { b }`. -/
def iteV (c : Prop) [Decidable c] (a b : V Unit) : V Unit :=
  if c then a else b

/-! ### Header validation (gitypelib.c:531-666)

Modelled header layout (112 bytes; `gitypelib-internal.h` is not among the
given sources, so the intra-record offsets follow the field list of the spec,
section 3): magic at 0 (16 bytes), major/minor version at 16/17, reserved
at 18, `n_entries` at 20, `n_local_entries` at 22, `directory` at 24,
`n_attributes` at 28, `attributes` at 32, `dependencies` at 36, `size` at
40, `namespace` at 44, `nsversion` at 48, `shared_library` at 52,
`c_prefix` at 56, then the 18 16-bit record-size fields from 60
(`entry_blob_size`) to 94 (`union_blob_size`) in spec order, `sections` at
96, padding to 112. -/

/-- `validate_header_basic` (gitypelib.c:532-648). -/
def validateHeaderBasic (d : Bytes) (len : Nat) : V Unit := do
  guardE (len < 112)
    ⟨.invalid, "The specified typelib length " ++ toString len ++ " is too short", []⟩
  let magic ← readBytesN d 0 16
  guardE (magic ≠ GI_IR_MAGIC) ⟨.invalidHeader, "Invalid magic header", []⟩
  let major ← readU8 d 16
  guardE (major ≠ 4)
    ⟨.invalidHeader, "Typelib version mismatch; expected 4, found " ++ toString major, []⟩
  let nEntries ← readU16 d 20
  let nLocal ← readU16 d 22
  guardE (nEntries < nLocal) ⟨.invalidHeader, "Inconsistent entry counts", []⟩
  let size ← readU32 d 40
  guardE (size ≠ len)
    ⟨.invalidHeader, "Typelib size " ++ toString size ++ " does not match " ++ toString len, []⟩
  let sEntry ← readU16 d 60
  let sFunction ← readU16 d 62
  let sCallback ← readU16 d 64
  let sSignal ← readU16 d 66
  let sVFunc ← readU16 d 68
  let sArg ← readU16 d 70
  let sProperty ← readU16 d 72
  let sField ← readU16 d 74
  let sValue ← readU16 d 76
  let sAttribute ← readU16 d 78
  let sConstant ← readU16 d 80
  let sSignature ← readU16 d 84
  let sEnum ← readU16 d 86
  let sStruct ← readU16 d 88
  let sObject ← readU16 d 90
  let sInterface ← readU16 d 92
  let sUnion ← readU16 d 94
  guardE (sEntry ≠ 12 ∨ sFunction ≠ 20 ∨ sCallback ≠ 12 ∨ sSignal ≠ 16 ∨ sVFunc ≠ 20 ∨
      sArg ≠ 16 ∨ sProperty ≠ 16 ∨ sField ≠ 16 ∨ sValue ≠ 12 ∨ sConstant ≠ 24 ∨
      sAttribute ≠ 12 ∨ sSignature ≠ 8 ∨ sEnum ≠ 24 ∨ sStruct ≠ 32 ∨ sObject ≠ 60 ∨
      sInterface ≠ 40 ∨ sUnion ≠ 40)
    ⟨.invalidHeader, "Blob size mismatch", []⟩
  let dir ← readU32 d 24
  guardE (¬ isAligned dir) ⟨.invalidHeader, "Misaligned directory", []⟩
  let attrs ← readU32 d 32
  guardE (¬ isAligned attrs) ⟨.invalidHeader, "Misaligned attributes", []⟩
  let nAttrs ← readU32 d 28
  guardE (attrs = 0 ∧ 0 < nAttrs) ⟨.invalidHeader, "Wrong number of attributes", []⟩

/-- The branch structure of `validateHeaderBasic` over total reads; proven
equal to the monadic definition whenever the buffer holds a full header
(`vhb_eq_pure` below). -/
def vhbPure (d : Bytes) (len : Nat) : V Unit :=
  if len < 112 then
    .error ⟨.invalid, "The specified typelib length " ++ toString len ++ " is too short", []⟩
  else if d.take 16 ≠ GI_IR_MAGIC then
    .error ⟨.invalidHeader, "Invalid magic header", []⟩
  else if getU8 d 16 ≠ 4 then
    .error ⟨.invalidHeader, "Typelib version mismatch; expected 4, found " ++ toString (getU8 d 16), []⟩
  else if getU16 d 20 < getU16 d 22 then
    .error ⟨.invalidHeader, "Inconsistent entry counts", []⟩
  else if getU32 d 40 ≠ len then
    .error ⟨.invalidHeader, "Typelib size " ++ toString (getU32 d 40) ++ " does not match " ++ toString len, []⟩
  else if getU16 d 60 ≠ 12 ∨ getU16 d 62 ≠ 20 ∨ getU16 d 64 ≠ 12 ∨ getU16 d 66 ≠ 16 ∨
      getU16 d 68 ≠ 20 ∨ getU16 d 70 ≠ 16 ∨ getU16 d 72 ≠ 16 ∨ getU16 d 74 ≠ 16 ∨
      getU16 d 76 ≠ 12 ∨ getU16 d 80 ≠ 24 ∨ getU16 d 78 ≠ 12 ∨ getU16 d 84 ≠ 8 ∨
      getU16 d 86 ≠ 24 ∨ getU16 d 88 ≠ 32 ∨ getU16 d 90 ≠ 60 ∨ getU16 d 92 ≠ 40 ∨
      getU16 d 94 ≠ 40 then
    .error ⟨.invalidHeader, "Blob size mismatch", []⟩
  else if ¬ isAligned (getU32 d 24) then
    .error ⟨.invalidHeader, "Misaligned directory", []⟩
  else if ¬ isAligned (getU32 d 32) then
    .error ⟨.invalidHeader, "Misaligned attributes", []⟩
  else if getU32 d 32 = 0 ∧ 0 < getU32 d 28 then
    .error ⟨.invalidHeader, "Wrong number of attributes", []⟩
  else .ok ()

/-- `validate_header` (gitypelib.c:650): basic checks, then the namespace
name (header offset 44) must be a valid identifier. -/
def validateHeader (d : Bytes) : V Unit := do
  validateHeaderBasic d d.length
  let ns ← readU32 d 44
  validateName d [] "namespace" ns

/-! ### Directory entries (gitypelib.c:73-166)

Modelled `DirEntry` layout (12 bytes): `blob_type` at 0 (u16), flags at 2
(bit 0 = `local`), `name` at 4 (u32), `offset` at 8 (u32). -/

/-- The fields of a `DirEntry`. -/
structure DirEntryR where
  blobType : Nat
  isLocal : Bool
  nameOff : Nat
  offset : Nat
deriving DecidableEq, Repr

/-- `header->directory + (index - 1u) * header->entry_blob_size`, computed
in 32-bit unsigned arithmetic as in C (note the index-0 underflow noted at
gitypelib.c:164). -/
def dirEntryOffset (dir ebs index : Nat) : Nat :=
  m32 (dir + m32 (m32 (index + 4294967295) * ebs))

/-- Read the four fields of a directory entry at byte offset `off`. -/
def readDirEntry (d : Bytes) (off : Nat) : V DirEntryR := do
  let bt ← readU16 d off
  let fl ← readU16 d (off + 2)
  let nm ← readU32 d (off + 4)
  let os ← readU32 d (off + 8)
  pure ⟨bt, fl % 2 == 1, nm, os⟩

/-- `get_dir_entry_checked` (gitypelib.c:73-102). -/
def getDirEntryChecked (d : Bytes) (st : List String) (index : Nat) : V DirEntryR := do
  let nEntries ← readU16 d 20
  guardE (index = 0 ∨ nEntries < index)
    ⟨.invalidBlob, "Invalid directory index " ++ toString index, st⟩
  let dir ← readU32 d 24
  let ebs ← readU16 d 60
  let off := dirEntryOffset dir ebs index
  guardE (d.length < off + 12) (bufShortErr st)
  readDirEntry d off

/-- `gi_typelib_get_dir_entry` (gitypelib.c:158-166): the unchecked,
1-based accessor. -/
def giTypelibGetDirEntry (d : Bytes) (index : Nat) : V DirEntryR := do
  let dir ← readU32 d 24
  let ebs ← readU16 d 60
  readDirEntry d (dirEntryOffset dir ebs index)

/-! ### Type blobs (gitypelib.c:105-146, 668-855)

Modelled `SimpleTypeBlob` (4 bytes, read as one u32 union): `reserved` =
bits 0-7, `reserved2` = bits 8-23, `pointer` = bit 24, `reserved3` = bits
25-26, `tag` = bits 27-31; the same u32 doubles as `offset`.  The complex
type blobs (`InterfaceTypeBlob`, `ArrayTypeBlob`, `ParamTypeBlob`,
`ErrorTypeBlob`) share a first byte with `pointer` = bit 0, reserved = bits
1-2, `tag` = bits 3-7; `ArrayTypeBlob.type` is at offset 4
(`G_STRUCT_OFFSET`), `InterfaceTypeBlob.interface` and
`ParamTypeBlob.n_types` are the u16 at offset 2.

Type tags (spec section 3): void 0 .. unichar 21; `GI_TYPE_TAG_IS_BASIC tag`
is `tag < 15 (array) or tag = 21 (unichar)`; blob types (spec section 3):
invalid 0, function 1, callback 2, struct 3, boxed 4, enum 5, flags 6,
object 7, interface 8, constant 9, union 10. -/

/-- `tag` of a `SimpleTypeBlob` union value. -/
def stbTag (v : Nat) : Nat := v / 134217728 % 32

/-- `pointer` bit of a `SimpleTypeBlob` union value. -/
def stbPointer (v : Nat) : Nat := v / 16777216 % 2

/-- `reserved`/`reserved2` of a `SimpleTypeBlob` union value (the low 24
bits, both zero iff the blob is a basic simple type). -/
def stbReserved (v : Nat) : Nat := v % 16777216

/-- `tag` of the first byte of a complex type blob. -/
def itbTag (b : Nat) : Nat := b / 8 % 32

/-- `pointer` bit of the first byte of a complex type blob. -/
def itbPointer (b : Nat) : Nat := b % 2

/-- `get_type_blob` (gitypelib.c:121-146) on a `SimpleTypeBlob` union value
`v`: fail on a zero offset, fail if the value is a basic simple type, then
the `sizeof (CommonBlob)` bounds check of `get_blob`; returns the blob offset. -/
def getTypeBlob (d : Bytes) (st : List String) (v : Nat) : V Nat := do
  guardE (v = 0) ⟨.invalid, "Expected blob for type", st⟩
  guardE (stbReserved v = 0)
    ⟨.invalid, "Expected non-basic type but got " ++ toString (stbTag v), st⟩
  guardE (d.length < v + 8) (bufShortErr st)
  pure v

/-- `validate_type_blob` (gitypelib.c:778-855) together with its helpers
`validate_array_type_blob`, `validate_iface_type_blob`,
`validate_param_type_blob` and `validate_error_type_blob`
(gitypelib.c:674-776), with the param-count loop unrolled (the C call sites
pass the literal counts 1 and 2).  The C recursion has no depth bound (see
spec section 9); the model uses explicit fuel, whose exhaustion marks an
input on which the C code would recurse forever. -/
def validateTypeBlob (d : Bytes) (st : List String) : Nat → Nat → V Unit
  | 0, _ => throw ⟨.oobRead, "model: unbounded type-blob recursion", st⟩
  | fuel + 1, off => do
    let simple ← readU32 d off
    if stbReserved simple = 0 then do
      guardE (¬ (stbTag simple < 15 ∨ stbTag simple = 21))
        ⟨.invalidBlob, "Invalid non-basic tag " ++ toString (stbTag simple) ++ " in simple type", st⟩
      guardE (13 ≤ stbTag simple ∧ stbTag simple ≠ 21 ∧ stbPointer simple = 0)
        ⟨.invalidBlob, "Pointer type exected for tag " ++ toString (stbTag simple), st⟩
    else do
      let b0 ← readU8 d simple
      match itbTag b0 with
      | 15 =>
        validateTypeBlob d st fuel (m32 (simple + 4))
      | 16 => do
        let idx ← readU16 d (simple + 2)
        let _ ← getDirEntryChecked d st idx
        pure ()
      | 17 => do
        guardE (itbPointer b0 = 0)
          ⟨.invalidBlob, "Pointer type exected for tag " ++ toString (itbTag b0), st⟩
        let nTypes ← readU16 d (simple + 2)
        guardE (nTypes ≠ 1) ⟨.invalidBlob, "Parameter type number mismatch", st⟩
        validateTypeBlob d st fuel (m32 (simple + 4))
      | 18 => do
        guardE (itbPointer b0 = 0)
          ⟨.invalidBlob, "Pointer type exected for tag " ++ toString (itbTag b0), st⟩
        let nTypes ← readU16 d (simple + 2)
        guardE (nTypes ≠ 1) ⟨.invalidBlob, "Parameter type number mismatch", st⟩
        validateTypeBlob d st fuel (m32 (simple + 4))
      | 19 => do
        guardE (itbPointer b0 = 0)
          ⟨.invalidBlob, "Pointer type exected for tag " ++ toString (itbTag b0), st⟩
        let nTypes ← readU16 d (simple + 2)
        guardE (nTypes ≠ 2) ⟨.invalidBlob, "Parameter type number mismatch", st⟩
        validateTypeBlob d st fuel (m32 (simple + 4))
        validateTypeBlob d st fuel (m32 (simple + 4 + 4))
      | 20 =>
        guardE (itbPointer b0 = 0)
          ⟨.invalidBlob, "Pointer type exected for tag " ++ toString (itbTag b0), st⟩
      | _ => throw ⟨.invalidBlob, "Wrong tag in complex type", st⟩

/-- `validate_type_blob` with the default fuel of the model: a terminating run of
the C code visits pairwise distinct in-buffer offsets, so `d.length + 2`
levels suffice to distinguish termination from a cycle. -/
def validateTypeBlobTop (d : Bytes) (st : List String) (off : Nat) : V Unit :=
  validateTypeBlob d st (d.length + 2) off

/-! ### Signatures and arguments (gitypelib.c:857-954)

Modelled `SignatureBlob` (8 bytes): `return_type` at 0 (u32 simple type),
flags at 4 (u16), `n_arguments` at 6 (u16); `ArgBlob` (16 bytes): `name` at
0, `arg_type` at 12 (`G_STRUCT_OFFSET`). -/

/-- `validate_arg_blob` (gitypelib.c:857-885). -/
def validateArgBlob (d : Bytes) (st : List String) (off : Nat) : V Unit := do
  guardE (d.length < off + 16) (bufShortErr st)
  let nameOff ← readU32 d off
  validateName d st "argument" nameOff
  validateTypeBlobTop d st (off + 12)

/-- The `n_arguments` loop of `validate_signature_blob` (gitypelib.c:941). -/
def validateArgsN (d : Bytes) (st : List String) : Nat → Nat → V Unit
  | 0, _ => pure ()
  | n + 1, off => do
    validateArgBlob d st off
    validateArgsN d st n (m32 (off + 16))

/-- `validate_signature_blob` (gitypelib.c:915-954). -/
def validateSignatureBlob (d : Bytes) (st : List String) (off : Nat) : V Unit := do
  guardE (d.length < off + 8) (bufShortErr st)
  let retType ← readU32 d off
  whenE (retType ≠ 0) (validateTypeBlobTop d st off)
  let nArgs ← readU16 d (off + 6)
  validateArgsN d st nArgs (m32 (off + 8))

/-! ### Function and callback blobs (gitypelib.c:956-1115)

Modelled `FunctionBlob` (20 bytes): `blob_type` at 0, flags at 2 (u16:
bit 0 `deprecated`, bit 1 `setter`, bit 2 `getter`, bit 3 `constructor`,
bit 4 `wraps_vfunc`, bit 5 `throws`, bits 6-15 `index`), `name` at 4,
`symbol` at 8, `signature` at 12.  `CallbackBlob` (12 bytes): `blob_type`
at 0, `name` at 4, `signature` at 8. -/

/-- `return_type_from_signature` (gitypelib.c:887-913); returns the
`SimpleTypeBlob` union value of the return type of the signature. -/
def returnTypeFromSignature (d : Bytes) (st : List String) (off : Nat) : V Nat := do
  guardE (d.length < off + 8) (bufShortErr st)
  let retType ← readU32 d off
  guardE (retType = 0) ⟨.invalid, "No return type found in signature", st⟩
  pure retType

/-- `validate_function_blob` (gitypelib.c:956-1074). -/
def validateFunctionBlob (d : Bytes) (st : List String) (off : Nat) (containerType : Nat) : V Unit := do
  guardE (d.length < off + 20) (bufShortErr st)
  let bt ← readU16 d off
  guardE (bt ≠ 1) ⟨.invalidBlob, "Wrong blob type " ++ toString bt ++ ", expected function", st⟩
  let nameOff ← readU32 d (off + 4)
  validateName d st "function" nameOff
  let st' := strOfBytes (cstrAt d nameOff) :: st
  let symOff ← readU32 d (off + 8)
  validateName d st' "function symbol" symOff
  let flags ← readU16 d (off + 2)
  let setter := flags / 2 % 2
  let getter := flags / 4 % 2
  let constructor := flags / 8 % 2
  let wrapsVfunc := flags / 16 % 2
  let index := flags / 64 % 1024
  whenE (constructor = 1)
    (guardE (¬ (containerType = 4 ∨ containerType = 3 ∨ containerType = 10 ∨
        containerType = 7 ∨ containerType = 8))
      ⟨.invalidBlob, "Constructor not allowed", st'⟩)
  whenE (setter = 1 ∨ getter = 1 ∨ wrapsVfunc = 1)
    (guardE (¬ (containerType = 7 ∨ containerType = 8))
      ⟨.invalidBlob, "Setter, getter or wrapper not allowed", st'⟩)
  whenE (index ≠ 0)
    (guardE (¬ (setter = 1 ∨ getter = 1 ∨ wrapsVfunc = 1))
      ⟨.invalidBlob, "Must be setter, getter or wrapper", st'⟩)
  let sig ← readU32 d (off + 12)
  validateSignatureBlob d st' sig
  whenE (constructor = 1) (do
    let retType ← returnTypeFromSignature d st' sig
    let blobOff ← getTypeBlob d st' retType
    let b0 ← readU8 d blobOff
    guardE (itbTag b0 ≠ 16 ∧ (containerType = 7 ∨ containerType = 8))
      ⟨.invalid, "Invalid return type \x27" ++ giTypeTagToString (itbTag b0) ++
        "\x27 for constructor \x27" ++ strOfBytes (cstrAt d symOff) ++ "\x27", st'⟩)

/-- `validate_callback_blob` (gitypelib.c:1076-1115). -/
def validateCallbackBlob (d : Bytes) (st : List String) (off : Nat) : V Unit := do
  guardE (d.length < off + 12) (bufShortErr st)
  let bt ← readU16 d off
  guardE (bt ≠ 2) ⟨.invalidBlob, "Wrong blob type", st⟩
  let nameOff ← readU32 d (off + 4)
  validateName d st "callback" nameOff
  let st' := strOfBytes (cstrAt d nameOff) :: st
  let sig ← readU32 d (off + 8)
  validateSignatureBlob d st' sig

/-! ### Constant, value, field and property blobs (gitypelib.c:1117-1301)

Modelled layouts: `ConstantBlob` (24 bytes): `blob_type` 0, `name` 4,
`type` 8 (`G_STRUCT_OFFSET`), `size` 12, `offset` 16.  `ValueBlob` (12
bytes): flags 0, `name` 4, `value` 8.  `FieldBlob` (16 bytes): `name` 0,
flag byte 4 (bit 0 `readable`, bit 1 `writable`, bit 2
`has_embedded_type`), `bits` 5, `struct_offset` 6, `type` 12
(`G_STRUCT_OFFSET`).  `PropertyBlob` (16 bytes): `name` 0, `type` 12
(`G_STRUCT_OFFSET`). -/

/-- `validate_constant_blob` (gitypelib.c:1117-1212). -/
def validateConstantBlob (d : Bytes) (st : List String) (off : Nat) : V Unit := do
  guardE (d.length < off + 24) (bufShortErr st)
  let bt ← readU16 d off
  guardE (bt ≠ 9) ⟨.invalidBlob, "Wrong blob type", st⟩
  let nameOff ← readU32 d (off + 4)
  validateName d st "constant" nameOff
  validateTypeBlobTop d st (off + 8)
  let valOff ← readU32 d (off + 16)
  guardE (¬ isAligned valOff) ⟨.invalidBlob, "Misaligned constant value", st⟩
  let typeVal ← readU32 d (off + 8)
  whenE (stbReserved typeVal = 0) (do
    guardE (stbTag typeVal = 0) ⟨.invalidBlob, "Constant value type void", st⟩
    let size ← readU32 d (off + 12)
    guardE (valueSizeTag (stbTag typeVal) ≠ 0 ∧ size ≠ valueSizeTag (stbTag typeVal))
      ⟨.invalidBlob, "Constant value size mismatch", st⟩)

/-- `validate_value_blob` (gitypelib.c:1214-1236). -/
def validateValueBlob (d : Bytes) (st : List String) (off : Nat) : V Unit := do
  guardE (d.length < off + 12) (bufShortErr st)
  let nameOff ← readU32 d (off + 4)
  validateName d st "value" nameOff

/-- `validate_field_blob` (gitypelib.c:1238-1272): a field with
`has_embedded_type` is followed by a callback blob at
`offset + header->field_blob_size`; otherwise the type slot of the field itself is
validated. -/
def validateFieldBlob (d : Bytes) (st : List String) (off : Nat) : V Unit := do
  guardE (d.length < off + 16) (bufShortErr st)
  let nameOff ← readU32 d off
  validateName d st "field" nameOff
  let fl ← readU8 d (off + 4)
  if fl / 4 % 2 = 1 then
    let fbs ← readU16 d 74
    validateCallbackBlob d st (m32 (off + fbs))
  else
    validateTypeBlobTop d st (off + 12)

/-- `validate_property_blob` (gitypelib.c:1274-1301). -/
def validatePropertyBlob (d : Bytes) (st : List String) (off : Nat) : V Unit := do
  guardE (d.length < off + 16) (bufShortErr st)
  let nameOff ← readU32 d off
  validateName d st "property" nameOff
  validateTypeBlobTop d st (off + 12)

/-! ### Signal and vfunc blobs (gitypelib.c:1303-1428)

Modelled `SignalBlob` (16 bytes): flags at 0 (u16: bit 0 `deprecated`,
bit 1 `run_first`, bit 2 `run_last`, bit 3 `run_cleanup`, bit 8
`has_class_closure`), `class_closure` at 2 (u16), `name` at 4, `signature`
at 12.  `VFuncBlob` (20 bytes): `name` at 0, flags at 4 (u16: bit 3 the
one-bit `class_closure` field that the C code also compares against
`n_vfuncs`), `signature` at 16.  For a container object, `n_signals` /
`n_vfuncs` are the u16s at container offsets 28 / 30; for an interface at 24
/ 26 (see the object and interface layouts below). -/

/-- `validate_signal_blob` (gitypelib.c:1303-1370). -/
def validateSignalBlob (d : Bytes) (st : List String) (off : Nat) (containerOff : Nat) : V Unit := do
  guardE (d.length < off + 16) (bufShortErr st)
  let nameOff ← readU32 d (off + 4)
  validateName d st "signal" nameOff
  let flags ← readU16 d off
  guardE (flags / 2 % 2 + flags / 4 % 2 + flags / 8 % 2 ≠ 1)
    ⟨.invalidBlob, "Invalid signal run flags", st⟩
  whenE (flags / 256 % 2 = 1) (do
    let cbt ← readU16 d containerOff
    let nSignals ← if cbt = 7 then readU16 d (containerOff + 28) else readU16 d (containerOff + 24)
    let cc ← readU16 d (off + 2)
    guardE (nSignals ≤ cc) ⟨.invalidBlob, "Invalid class closure index", st⟩)
  let sig ← readU32 d (off + 12)
  validateSignatureBlob d st sig

/-- `validate_vfunc_blob` (gitypelib.c:1372-1428). -/
def validateVFuncBlob (d : Bytes) (st : List String) (off : Nat) (containerOff : Nat) : V Unit := do
  guardE (d.length < off + 20) (bufShortErr st)
  let nameOff ← readU32 d off
  validateName d st "vfunc" nameOff
  let flags ← readU16 d (off + 4)
  let cc := flags / 8 % 2
  whenE (cc ≠ 0) (do
    let cbt ← readU16 d containerOff
    let nVfuncs ← if cbt = 7 then readU16 d (containerOff + 30) else readU16 d (containerOff + 26)
    guardE (nVfuncs ≤ cc) ⟨.invalidBlob, "Invalid class closure index", st⟩)
  let sig ← readU32 d (off + 16)
  validateSignatureBlob d st sig

/-! ### Composite record walks -/

/-- The field walk shared by `validate_struct_blob` (gitypelib.c:1497-1510)
and `validate_object_blob` (gitypelib.c:1774-1788): validate each field,
advance by `sizeof (FieldBlob)` plus `sizeof (CallbackBlob)` when the field
has an embedded type, and count the embedded callbacks (the count is used
by the object validator only).  Returns the final offset and the count. -/
def walkFields (d : Bytes) (st : List String) : Nat → Nat → Nat → V (Nat × Nat)
  | 0, off, acc => pure (off, acc)
  | n + 1, off, acc => do
    validateFieldBlob d st off
    let fl ← readU8 d (off + 4)
    if fl / 4 % 2 = 1 then
      walkFields d st n (m32 (m32 (off + 16) + 12)) (acc + 1)
    else
      walkFields d st n (m32 (off + 16)) acc

/-- The pure companion of `walkFields`: the same walk, recording only the
offsets and the number of fields whose `has_embedded_type` flag is set. -/
def fieldCbCount (d : Bytes) : Nat → Nat → Nat → Option (Nat × Nat)
  | 0, off, acc => some (off, acc)
  | n + 1, off, acc =>
    match d.get? (off + 4) with
    | none => none
    | some fl =>
      if fl / 4 % 2 = 1 then
        fieldCbCount d n (m32 (m32 (off + 16) + 12)) (acc + 1)
      else
        fieldCbCount d n (m32 (off + 16)) acc

/-- A method loop (`validate_function_blob` over `n` consecutive
`FunctionBlob`s, stride 20); returns the offset past the last method. -/
def validateMethodsN (d : Bytes) (st : List String) (containerType : Nat) : Nat → Nat → V Nat
  | 0, off => pure off
  | n + 1, off => do
    validateFunctionBlob d st off containerType
    validateMethodsN d st containerType n (m32 (off + 20))

/-- A value loop (`validate_value_blob` over `n` consecutive `ValueBlob`s,
stride 12). -/
def validateValuesN (d : Bytes) (st : List String) : Nat → Nat → V Nat
  | 0, off => pure off
  | n + 1, off => do
    validateValueBlob d st off
    validateValuesN d st n (m32 (off + 12))

/-- A property loop (stride 16). -/
def validatePropsN (d : Bytes) (st : List String) : Nat → Nat → V Nat
  | 0, off => pure off
  | n + 1, off => do
    validatePropertyBlob d st off
    validatePropsN d st n (m32 (off + 16))

/-- A signal loop (stride 16, container offset fixed). -/
def validateSignalsN (d : Bytes) (st : List String) (containerOff : Nat) : Nat → Nat → V Nat
  | 0, off => pure off
  | n + 1, off => do
    validateSignalBlob d st off containerOff
    validateSignalsN d st containerOff n (m32 (off + 16))

/-- A vfunc loop (stride 20, container offset fixed). -/
def validateVFuncsN (d : Bytes) (st : List String) (containerOff : Nat) : Nat → Nat → V Nat
  | 0, off => pure off
  | n + 1, off => do
    validateVFuncBlob d st off containerOff
    validateVFuncsN d st containerOff n (m32 (off + 20))

/-- A constant loop (stride 24). -/
def validateConstsN (d : Bytes) (st : List String) : Nat → Nat → V Nat
  | 0, off => pure off
  | n + 1, off => do
    validateConstantBlob d st off
    validateConstsN d st n (m32 (off + 24))

/-- The interface-index loop of `validate_object_blob`
(gitypelib.c:1740-1768): each u16 must be a valid directory index whose
entry is a local interface or a foreign entry. -/
def validateIfacesN (d : Bytes) (st : List String) (nEntries : Nat) : Nat → Nat → V Nat
  | 0, off => pure off
  | n + 1, off => do
    let iface ← readU16 d off
    guardE (iface = 0 ∨ nEntries < iface) ⟨.invalidBlob, "Invalid interface index", st⟩
    let e ← getDirEntryChecked d st iface
    guardE (e.blobType ≠ 8 ∧ (e.isLocal = true ∨ e.blobType ≠ 0))
      ⟨.invalidBlob, "Not an interface", st⟩
    validateIfacesN d st nEntries n (m32 (off + 2))

/-- The prerequisite loop of `validate_interface_blob`
(gitypelib.c:1896-1922): like the interface loop but the entry may be a
local interface or object, and the entry is fetched with the unchecked
accessor. -/
def validatePrereqsN (d : Bytes) (st : List String) (nEntries : Nat) : Nat → Nat → V Nat
  | 0, off => pure off
  | n + 1, off => do
    let req ← readU16 d off
    guardE (req = 0 ∨ nEntries < req) ⟨.invalidBlob, "Invalid prerequisite index", st⟩
    let e ← giTypelibGetDirEntry d req
    guardE (e.blobType ≠ 8 ∧ e.blobType ≠ 7 ∧ (e.isLocal = true ∨ e.blobType ≠ 0))
      ⟨.invalidBlob, "Not an interface or object", st⟩
    validatePrereqsN d st nEntries n (m32 (off + 2))

/-! ### Struct, enum, object, interface and union blobs (gitypelib.c:1430-1969)

Modelled layouts: `StructBlob` (32 bytes): `blob_type` 0, flags 2 (bit 1
`unregistered`), `name` 4, `gtype_name` 8, `gtype_init` 12, `n_fields` 20,
`n_methods` 22.  `EnumBlob` (24 bytes): `blob_type` 0, flags 2 (bit 1
`unregistered`), `name` 4, `gtype_name` 8, `gtype_init` 12, `n_values` 16,
`n_methods` 18, `error_domain` 20.  `ObjectBlob` (60 bytes): `blob_type` 0,
flags 2, `name` 4, `gtype_name` 8, `gtype_init` 12, `parent` 16,
`gtype_struct` 18, then the u16 counts `n_interfaces` 20, `n_fields` 22,
`n_properties` 24, `n_methods` 26, `n_signals` 28, `n_vfuncs` 30,
`n_constants` 32, `n_field_callbacks` 34.  `InterfaceBlob` (40 bytes):
`blob_type` 0, `name` 4, `gtype_name` 8, `gtype_init` 12, `gtype_struct`
16, `n_prerequisites` 18, then `n_properties` 20, `n_methods` 22,
`n_signals` 24, `n_vfuncs` 26, `n_constants` 28. -/

/-- `validate_struct_blob` (gitypelib.c:1430-1525). -/
def validateStructBlob (d : Bytes) (st : List String) (off : Nat) (blobType : Nat) : V Unit := do
  guardE (d.length < off + 32) (bufShortErr st)
  let bt ← readU16 d off
  guardE (bt ≠ blobType) ⟨.invalidBlob, "Wrong blob type", st⟩
  let nameOff ← readU32 d (off + 4)
  validateName d st "struct" nameOff
  let st' := strOfBytes (cstrAt d nameOff) :: st
  let flags ← readU16 d (off + 2)
  let gtName ← readU32 d (off + 8)
  let gtInit ← readU32 d (off + 12)
  iteV (flags / 2 % 2 = 0)
    (do
      validateName d st' "boxed" gtName
      validateName d st' "boxed" gtInit)
    (guardE (gtName ≠ 0 ∨ gtInit ≠ 0) ⟨.invalidBlob, "Gtype data in struct", st'⟩)
  let nFields ← readU16 d (off + 20)
  let nMethods ← readU16 d (off + 22)
  guardE (d.length < off + 32 + nFields * 16 + nMethods * 20) (bufShortErr st')
  let r ← walkFields d st' nFields (m32 (off + 32)) 0
  let _ ← validateMethodsN d st' blobType nMethods r.1
  pure ()

/-- `validate_enum_blob` (gitypelib.c:1527-1632). -/
def validateEnumBlob (d : Bytes) (st : List String) (off : Nat) (blobType : Nat) : V Unit := do
  guardE (d.length < off + 24) (bufShortErr st)
  let bt ← readU16 d off
  guardE (bt ≠ blobType) ⟨.invalidBlob, "Wrong blob type", st⟩
  let flags ← readU16 d (off + 2)
  let gtName ← readU32 d (off + 8)
  let gtInit ← readU32 d (off + 12)
  iteV (flags / 2 % 2 = 0)
    (do
      validateName d st "enum" gtName
      validateName d st "enum" gtInit)
    (guardE (gtName ≠ 0 ∨ gtInit ≠ 0) ⟨.invalidBlob, "Gtype data in unregistered enum", st⟩)
  let nameOff ← readU32 d (off + 4)
  validateName d st "enum" nameOff
  let nValues ← readU16 d (off + 16)
  let nMethods ← readU16 d (off + 18)
  guardE (d.length < off + 24 + nValues * 12 + nMethods * 20) (bufShortErr st)
  let st' := strOfBytes (cstrAt d nameOff) :: st
  let off2 ← validateValuesN d st' nValues (m32 (off + 24))
  let _ ← validateMethodsN d st' 5 nMethods off2
  pure ()

/-- `validate_object_blob` (gitypelib.c:1634-1834). -/
def validateObjectBlob (d : Bytes) (st : List String) (off : Nat) : V Unit := do
  guardE (d.length < off + 60) (bufShortErr st)
  let bt ← readU16 d off
  guardE (bt ≠ 7) ⟨.invalidBlob, "Wrong blob type", st⟩
  let gtName ← readU32 d (off + 8)
  validateName d st "object" gtName
  let gtInit ← readU32 d (off + 12)
  validateName d st "object" gtInit
  let nameOff ← readU32 d (off + 4)
  validateName d st "object" nameOff
  let nEntries ← readU16 d 20
  let parent ← readU16 d (off + 16)
  guardE (nEntries < parent) ⟨.invalidBlob, "Invalid parent index", st⟩
  whenE (parent ≠ 0) (do
    let e ← getDirEntryChecked d st parent
    guardE (e.blobType ≠ 7 ∧ (e.isLocal = true ∨ e.blobType ≠ 0))
      ⟨.invalidBlob, "Parent not object", st⟩)
  let gtypeStruct ← readU16 d (off + 18)
  whenE (gtypeStruct ≠ 0) (do
    let e ← getDirEntryChecked d st gtypeStruct
    guardE (e.blobType ≠ 3 ∧ e.isLocal = true)
      ⟨.invalidBlob, "Class struct invalid type or not local", st⟩)
  let nIfaces ← readU16 d (off + 20)
  let nFields ← readU16 d (off + 22)
  let nProps ← readU16 d (off + 24)
  let nMethods ← readU16 d (off + 26)
  let nSignals ← readU16 d (off + 28)
  let nVfuncs ← readU16 d (off + 30)
  let nConsts ← readU16 d (off + 32)
  let nFieldCbs ← readU16 d (off + 34)
  guardE (d.length < off + 60 + (nIfaces + nIfaces % 2) * 2 + nFields * 16 + nProps * 16 +
      nMethods * 20 + nSignals * 16 + nVfuncs * 20 + nConsts * 24) (bufShortErr st)
  let offI ← validateIfacesN d st nEntries nIfaces (m32 (off + 60))
  let off2 := m32 (offI + 2 * (nIfaces % 2))
  let st' := strOfBytes (cstrAt d nameOff) :: st
  let r ← walkFields d st' nFields off2 0
  guardE (nFieldCbs ≠ r.2)
    ⟨.invalidBlob, "Incorrect number of field callbacks; expected " ++
      toString nFieldCbs ++ ", got " ++ toString r.2, st'⟩
  let off3 ← validatePropsN d st' nProps r.1
  let off4 ← validateMethodsN d st' 7 nMethods off3
  let off5 ← validateSignalsN d st' off nSignals off4
  let off6 ← validateVFuncsN d st' off nVfuncs off5
  let _ ← validateConstsN d st' nConsts off6
  pure ()

/-- `validate_interface_blob` (gitypelib.c:1836-1961). -/
def validateInterfaceBlob (d : Bytes) (st : List String) (off : Nat) : V Unit := do
  guardE (d.length < off + 40) (bufShortErr st)
  let bt ← readU16 d off
  guardE (bt ≠ 8) ⟨.invalidBlob, "Wrong blob type; expected interface, got " ++ toString bt, st⟩
  let gtName ← readU32 d (off + 8)
  validateName d st "interface" gtName
  let gtInit ← readU32 d (off + 12)
  validateName d st "interface" gtInit
  let nameOff ← readU32 d (off + 4)
  validateName d st "interface" nameOff
  let nEntries ← readU16 d 20
  let nPrereqs ← readU16 d (off + 18)
  let nProps ← readU16 d (off + 20)
  let nMethods ← readU16 d (off + 22)
  let nSignals ← readU16 d (off + 24)
  let nVfuncs ← readU16 d (off + 26)
  let nConsts ← readU16 d (off + 28)
  guardE (d.length < off + 40 + (nPrereqs + nPrereqs % 2) * 2 + nProps * 16 + nMethods * 20 +
      nSignals * 16 + nVfuncs * 20 + nConsts * 24) (bufShortErr st)
  let offP ← validatePrereqsN d st nEntries nPrereqs (m32 (off + 40))
  let off2 := m32 (offP + 2 * (nPrereqs % 2))
  let st' := strOfBytes (cstrAt d nameOff) :: st
  let off3 ← validatePropsN d st' nProps off2
  let off4 ← validateMethodsN d st' 8 nMethods off3
  let off5 ← validateSignalsN d st' off nSignals off4
  let off6 ← validateVFuncsN d st' off nVfuncs off5
  let _ ← validateConstsN d st' nConsts off6
  pure ()

/-- `validate_union_blob` (gitypelib.c:1963-1969): unconditionally
accepting (see spec section 9). -/
def validateUnionBlob (_d : Bytes) (_st : List String) (_off : Nat) : V Unit := pure ()

/-- `validate_blob` (gitypelib.c:1971-2035): dispatch on the blob type of
the `CommonBlob` at `off`. -/
def validateBlob (d : Bytes) (st : List String) (off : Nat) : V Unit := do
  guardE (d.length < off + 8) (bufShortErr st)
  let bt ← readU16 d off
  match bt with
  | 1 => validateFunctionBlob d st off 0
  | 2 => validateCallbackBlob d st off
  | 3 => validateStructBlob d st off 3
  | 4 => validateStructBlob d st off 4
  | 5 => validateEnumBlob d st off 5
  | 6 => validateEnumBlob d st off 6
  | 7 => validateObjectBlob d st off
  | 8 => validateInterfaceBlob d st off
  | 9 => validateConstantBlob d st off
  | 10 => validateUnionBlob d st off
  | _ => throw ⟨.invalidEntry, "Invalid blob type", st⟩

/-! ### Directory, attributes and the top level (gitypelib.c:2037-2201,
2348-2367) -/

/-- The per-entry body of the directory walk (gitypelib.c:2055-2109), for
the 0-based loop counter `i`. -/
def dirEntryCheck (d : Bytes) (st : List String) (nLocal : Nat) (i : Nat) : V Unit := do
  let e ← giTypelibGetDirEntry d (i + 1)
  validateName d st "entry" e.nameOff
  guardE ((e.isLocal = true ∧ e.blobType = 0) ∨ 10 < e.blobType)
    ⟨.invalidDirectory, "Invalid entry type", st⟩
  iteV (i < nLocal)
    (do
      guardE (e.isLocal = false) ⟨.invalidDirectory, "Too few local directory entries", st⟩
      guardE (¬ isAligned e.offset) ⟨.invalidDirectory, "Misaligned entry", st⟩
      validateBlob d st e.offset)
    (do
      guardE (e.isLocal = true) ⟨.invalidDirectory, "Too many local directory entries", st⟩
      validateName d st "namespace" e.offset)

/-- The directory loop: entries `i, i+1, ..., i+r-1` (0-based). -/
def dirLoop (d : Bytes) (st : List String) (nLocal : Nat) : Nat → Nat → V Unit
  | _, 0 => pure ()
  | i, r + 1 => do
    dirEntryCheck d st nLocal i
    dirLoop d st nLocal (i + 1) r

/-- `validate_directory` (gitypelib.c:2037-2112). -/
def validateDirectory (d : Bytes) (st : List String) : V Unit := do
  let nEntries ← readU16 d 20
  let dir ← readU32 d 24
  let nLocal ← readU16 d 22
  guardE (d.length < dir + nEntries * 12) (bufShortErr st)
  dirLoop d st nLocal 0 nEntries

/-- `validate_attributes` (gitypelib.c:2114-2131): note the bound uses
`header->size`, not the buffer length. -/
def validateAttributes (d : Bytes) (st : List String) : V Unit := do
  let size ← readU32 d 40
  let attrs ← readU32 d 32
  let nAttrs ← readU32 d 28
  guardE (size < attrs + nAttrs * 12) (bufShortErr st)

/-- `prefix_with_context` (gitypelib.c:2133-2161): with an empty context
stack the message becomes `"In <section>:" ++ msg`; otherwise the stack is
joined with `/`, a closing parenthesis is appended to the buffer, and the format string
`"In %s (Context: %s): "` contributes a second closing parenthesis. -/
def ctxDecorate (sect : String) (e : TErr) : TErr :=
  match e.ctx with
  | [] => { e with msg := "In " ++ sect ++ ":" ++ e.msg }
  | _ => { e with msg := "In " ++ sect ++ " (Context: " ++
      String.intercalate "/" e.ctx ++ ")): " ++ e.msg }

/-- `gi_typelib_validate` (gitypelib.c:2174-2201).  The section label
passed for the header stage is the string `"In header"`, which the format
string prefixes with another `"In "`, exactly as in the C code. -/
def giTypelibValidate (d : Bytes) : V Unit :=
  match validateHeader d with
  | .error e => .error (ctxDecorate "In header" e)
  | .ok _ =>
    match validateDirectory d [] with
    | .error e => .error (ctxDecorate "directory" e)
    | .ok _ =>
      match validateAttributes d [] with
      | .error e => .error (ctxDecorate "attributes" e)
      | .ok _ => .ok ()

/-- `gi_typelib_new_from_bytes` (gitypelib.c:2348-2367): runs the basic
header validation and returns the handle (modelled as the byte buffer
itself). -/
def giTypelibNewFromBytes (d : Bytes) : V Bytes := do
  validateHeaderBasic d d.length
  pure d

/-! ### Concrete typelib buffers

Hand-assembled buffers in the modelled layout, used as witnesses and
counterexamples.  Each builder comment gives the byte map. -/

/-- Two little-endian bytes. -/
def u16le (v : Nat) : List Nat := [v % 256, v / 256 % 256]

/-- Four little-endian bytes. -/
def u32le (v : Nat) : List Nat := [v % 256, v / 256 % 256, v / 65536 % 256, v / 16777216 % 256]

/-- A NUL-terminated identifier string. -/
def strBytes (s : String) : List Nat := s.toList.map Char.toNat ++ [0]

/-- A well-formed 112-byte header: magic, version 4.0, the given entry
counts, directory / attribute data, total `size`, namespace and `c_prefix`
string offsets, and the compiled-in record sizes. -/
def mkHeader (nEntries nLocal directory nAttrs attrs size nsOff cPfxOff : Nat) : List Nat :=
  GI_IR_MAGIC ++ [4, 0] ++ u16le 0 ++ u16le nEntries ++ u16le nLocal ++
  u32le directory ++ u32le nAttrs ++ u32le attrs ++ u32le 0 ++ u32le size ++
  u32le nsOff ++ u32le 0 ++ u32le 0 ++ u32le cPfxOff ++
  u16le 12 ++ u16le 20 ++ u16le 12 ++ u16le 16 ++ u16le 20 ++ u16le 16 ++
  u16le 16 ++ u16le 16 ++ u16le 12 ++ u16le 12 ++ u16le 24 ++ u16le 0 ++
  u16le 8 ++ u16le 24 ++ u16le 32 ++ u16le 60 ++ u16le 40 ++ u16le 40 ++
  u32le 0 ++ List.replicate 12 0

/-- `tlGtypeStructForeign`: a fully valid typelib whose single local object
has `gtype_struct = 2`, where directory entry 2 is a *foreign* entry (blob
type 0).  Byte map: header 0-111; directory 112-135 (entry 1: local object
`"O"` at 136; entry 2: foreign, name `"F"`, namespace string `"NS"`);
object blob 136-195 (name `"O"`, gtype name `"OG"`, gtype init `"og"`,
parent 0, `gtype_struct` 2, all counts 0); strings: `"T"` 196, `"O"` 198,
`"F"` 200, `"NS"` 202, `"OG"` 205, `"og"` 208; total length and header
`size` 211. -/
def tlGtypeStructForeign : Bytes :=
  mkHeader 2 1 112 0 0 211 196 0 ++
  (u16le 7 ++ u16le 1 ++ u32le 198 ++ u32le 136) ++
  (u16le 0 ++ u16le 0 ++ u32le 200 ++ u32le 202) ++
  (u16le 7 ++ u16le 0 ++ u32le 198 ++ u32le 205 ++ u32le 208 ++
   u16le 0 ++ u16le 2 ++ u16le 0 ++ u16le 0 ++ u16le 0 ++ u16le 0 ++
   u16le 0 ++ u16le 0 ++ u16le 0 ++ u16le 0 ++
   u32le 0 ++ u32le 0 ++ u32le 0 ++ u32le 0 ++ u32le 0 ++ u32le 0) ++
  strBytes "T" ++ strBytes "O" ++ strBytes "F" ++ strBytes "NS" ++
  strBytes "OG" ++ strBytes "og"

/-- A typelib with one local object `"O"` with `n_fields = 1`, the field
having `has_embedded_type` set and followed by a valid callback record, and
the given `n_field_callbacks` value.  Byte map: header 0-111; directory
112-123; object blob 124-183; field blob 184-199 (flag byte 4 =
`has_embedded_type`); embedded callback 200-211 (name `"cb"`, signature at
212); signature 212-219 (no return type, no arguments); strings: `"T"` 220,
`"O"` 222, `"OG"` 224, `"og"` 227, `"f"` 230, `"cb"` 232; length and
header `size` 235. -/
def mkFieldCbTl (nFieldCbs : Nat) : Bytes :=
  mkHeader 1 1 112 0 0 235 220 0 ++
  (u16le 7 ++ u16le 1 ++ u32le 222 ++ u32le 124) ++
  (u16le 7 ++ u16le 0 ++ u32le 222 ++ u32le 224 ++ u32le 227 ++
   u16le 0 ++ u16le 0 ++ u16le 0 ++ u16le 1 ++ u16le 0 ++ u16le 0 ++
   u16le 0 ++ u16le 0 ++ u16le 0 ++ u16le nFieldCbs ++
   u32le 0 ++ u32le 0 ++ u32le 0 ++ u32le 0 ++ u32le 0 ++ u32le 0) ++
  (u32le 230 ++ [4, 0] ++ u16le 0 ++ u32le 0 ++ u32le 0) ++
  (u16le 2 ++ u16le 0 ++ u32le 232 ++ u32le 212) ++
  (u32le 0 ++ u16le 0 ++ u16le 0) ++
  strBytes "T" ++ strBytes "O" ++ strBytes "OG" ++ strBytes "og" ++
  strBytes "f" ++ strBytes "cb"

/-- The declared/walked field-callback counts disagree: `validate` must
fail (spec scenario S4, second half). -/
def tlFieldCbBad : Bytes := mkFieldCbTl 0

/-- The counts agree: `validate` succeeds (spec scenario S4, first half). -/
def tlFieldCbOk : Bytes := mkFieldCbTl 1

/-- A typelib with one local object `"O"` with `n_signals = 1` and the
given signal flag word.  Byte map: header 0-111; directory 112-123; object
blob 124-183; signal blob 184-199 (name `"s"`, signature at 200); signature
200-207; strings: `"T"` 208, `"O"` 210, `"OG"` 212, `"og"` 215, `"s"` 218;
length and header `size` 220. -/
def mkSignalTl (signalFlags : Nat) : Bytes :=
  mkHeader 1 1 112 0 0 220 208 0 ++
  (u16le 7 ++ u16le 1 ++ u32le 210 ++ u32le 124) ++
  (u16le 7 ++ u16le 0 ++ u32le 210 ++ u32le 212 ++ u32le 215 ++
   u16le 0 ++ u16le 0 ++ u16le 0 ++ u16le 0 ++ u16le 0 ++ u16le 0 ++
   u16le 1 ++ u16le 0 ++ u16le 0 ++ u16le 0 ++
   u32le 0 ++ u32le 0 ++ u32le 0 ++ u32le 0 ++ u32le 0 ++ u32le 0) ++
  (u16le signalFlags ++ u16le 0 ++ u32le 218 ++ u32le 0 ++ u32le 200) ++
  (u32le 0 ++ u16le 0 ++ u16le 0) ++
  strBytes "T" ++ strBytes "O" ++ strBytes "OG" ++ strBytes "og" ++
  strBytes "s"

/-- A signal with both `run_first` (bit 1) and `run_last` (bit 2) set:
`validate` must fail (spec scenario S5). -/
def tlSignalBothRun : Bytes := mkSignalTl 6

/-- A signal with only `run_first` set: `validate` succeeds. -/
def tlSignalRunFirst : Bytes := mkSignalTl 2

/-- A typelib with one local object `"O"` with `n_methods = 1`, the method
being a constructor (`flags` bit 3) whose signature has as return type the
given `SimpleTypeBlob` union value.  Byte map: header 0-111; directory
112-123; object blob 124-183; function blob 184-203 (name `"new"`, symbol
`"t_new"`, signature at 204); signature 204-211 (return type `retVal`, no
arguments); extra blob bytes 212-215 (used by the interface-returning
variant); strings: `"T"` 216, `"O"` 218, `"OG"` 220, `"og"` 223, `"new"`
226, `"t_new"` 230; length and header `size` 236. -/
def mkCtorTl (retVal : Nat) (extra : List Nat) : Bytes :=
  mkHeader 1 1 112 0 0 236 216 0 ++
  (u16le 7 ++ u16le 1 ++ u32le 218 ++ u32le 124) ++
  (u16le 7 ++ u16le 0 ++ u32le 218 ++ u32le 220 ++ u32le 223 ++
   u16le 0 ++ u16le 0 ++ u16le 0 ++ u16le 0 ++ u16le 0 ++ u16le 1 ++
   u16le 0 ++ u16le 0 ++ u16le 0 ++ u16le 0 ++
   u32le 0 ++ u32le 0 ++ u32le 0 ++ u32le 0 ++ u32le 0 ++ u32le 0) ++
  (u16le 1 ++ u16le 8 ++ u32le 226 ++ u32le 230 ++ u32le 204 ++ u16le 0 ++ u16le 0) ++
  (u32le retVal ++ u16le 0 ++ u16le 0) ++
  extra ++
  strBytes "T" ++ strBytes "O" ++ strBytes "OG" ++ strBytes "og" ++
  strBytes "new" ++ strBytes "t_new"

/-- A constructor whose return type is the basic tag int32
(`6 <<< 27 = 805306368`, low 24 bits zero): `validate` must fail (spec
scenario S6).  The four extra bytes keep the layout of the valid variant. -/
def tlCtorInt32 : Bytes := mkCtorTl 805306368 [0, 0, 0, 0]

/-- A constructor whose return type is a complex `InterfaceTypeBlob` at
offset 212 (tag 16 in bits 3-7 of the first byte, directory index 1):
`validate` succeeds. -/
def tlCtorIface : Bytes := mkCtorTl 212 [128, 0, 1, 0]

/-- A 112-byte buffer that is all header: magic, version 4, zero entries,
`attributes = 4` (non-zero, aligned) while `n_attributes = 0`, `size` 112.
Accepted by `gi_typelib_new_from_bytes` even though `attributes == 0` iff
`n_attributes == 0` fails in the right-to-left direction. -/
def hdrAttrsNonzero : Bytes := mkHeader 0 0 0 0 4 112 0 0

/-! ### General lemmas about the `Except`-valued model -/

theorem throw_eq (e : TErr) {α : Type} : (throw e : V α) = .error e := rfl

theorem ok_bind {α β : Type} (a : α) (k : α → V β) : (Except.ok a >>= k) = k a := rfl

/-- Peel one monadic bind off a successful computation. -/
theorem seq_ok {α β : Type} {x : V α} {f : α → V β} {b : β}
    (h : (x >>= f) = .ok b) : ∃ a, x = .ok a ∧ f a = .ok b := by
  cases x with
  | error e => exact absurd h (by simp [Bind.bind, Except.bind])
  | ok a => exact ⟨a, rfl, by simpa [Bind.bind, Except.bind] using h⟩

theorem guardE_pos {c : Prop} [Decidable c] (hc : c) (e : TErr) : guardE c e = .error e := by
  unfold guardE
  rw [if_pos hc]
  rfl

theorem guardE_neg {c : Prop} [Decidable c] (hc : ¬ c) (e : TErr) : guardE c e = .ok () := by
  unfold guardE
  rw [if_neg hc]
  rfl

theorem guardE_eq_ite {c : Prop} [Decidable c] {e : TErr} :
    guardE c e = if c then .error e else .ok () := by
  by_cases hc : c
  · rw [guardE_pos hc, if_pos hc]
  · rw [guardE_neg hc, if_neg hc]

/-- A passed guard refutes its condition. -/
theorem guardE_ok {c : Prop} [Decidable c] {e : TErr} {u : Unit} (h : guardE c e = .ok u) :
    ¬ c := by
  intro hc
  rw [guardE_pos hc] at h
  exact absurd h (by simp)

/-- Evaluate a guard statement forwards. -/
theorem guardE_bind {c : Prop} [Decidable c] {e : TErr} {β : Type} {k : Unit → V β} :
    (guardE c e >>= k) = if c then .error e else k () := by
  by_cases hc : c
  · rw [guardE_pos hc, if_pos hc]
    rfl
  · rw [guardE_neg hc, if_neg hc]
    rfl

theorem ite_error_bind {c : Prop} [Decidable c] {e : TErr} {β : Type} {k : Unit → V β} :
    ((if c then Except.error e else Except.ok ()) >>= k) = if c then .error e else k () := by
  by_cases hc : c
  · rw [if_pos hc, if_pos hc]
    rfl
  · rw [if_neg hc, if_neg hc]
    rfl

theorem whenE_pos {c : Prop} [Decidable c] (hc : c) (body : V Unit) : whenE c body = body := by
  unfold whenE
  rw [if_pos hc]

theorem whenE_neg {c : Prop} [Decidable c] (hc : ¬ c) (body : V Unit) : whenE c body = .ok () := by
  unfold whenE
  rw [if_neg hc]
  rfl

theorem iteV_pos {c : Prop} [Decidable c] (hc : c) (a b : V Unit) : iteV c a b = a := by
  unfold iteV
  rw [if_pos hc]

theorem iteV_neg {c : Prop} [Decidable c] (hc : ¬ c) (a b : V Unit) : iteV c a b = b := by
  unfold iteV
  rw [if_neg hc]

theorem readU8_ok_get? {d : Bytes} {i v : Nat} (h : readU8 d i = .ok v) : d.get? i = some v := by
  unfold readU8 at h
  cases hg : d.get? i with
  | none => rw [hg] at h; cases h
  | some b => rw [hg] at h; cases h; rfl

theorem readU8_ok_val {d : Bytes} {i v : Nat} (h : readU8 d i = .ok v) :
    v = getU8 d i ∧ i < d.length := by
  have hg := readU8_ok_get? h
  refine ⟨?_, ?_⟩
  · unfold getU8
    rw [List.getD_eq_getElem?_getD, ← List.get?_eq_getElem?, hg]
    rfl
  · exact (List.get?_eq_some.mp hg).1

theorem getU8_eq_getElem {d : Bytes} {i : Nat} (h : i < d.length) : getU8 d i = d[i] := by
  unfold getU8
  rw [List.getD_eq_getElem?_getD, List.getElem?_eq_getElem h]
  rfl

theorem readU8_ok {d : Bytes} {i : Nat} (h : i < d.length) : readU8 d i = .ok (getU8 d i) := by
  unfold readU8
  cases hg : d.get? i with
  | none =>
    rw [List.get?_eq_none] at hg
    omega
  | some b =>
    unfold getU8
    rw [List.getD_eq_getElem?_getD, ← List.get?_eq_getElem?, hg]
    rfl

theorem readU16_ok_val {d : Bytes} {i v : Nat} (h : readU16 d i = .ok v) :
    v = getU16 d i ∧ i + 1 < d.length := by
  unfold readU16 at h
  obtain ⟨b0, h0, h⟩ := seq_ok h
  obtain ⟨b1, h1, h⟩ := seq_ok h
  obtain ⟨hv0, _⟩ := readU8_ok_val h0
  obtain ⟨hv1, hl1⟩ := readU8_ok_val h1
  cases h
  subst hv0
  subst hv1
  exact ⟨rfl, hl1⟩

theorem readU16_ok {d : Bytes} {i : Nat} (h : i + 1 < d.length) :
    readU16 d i = .ok (getU16 d i) := by
  unfold readU16
  rw [readU8_ok (by omega), ok_bind, readU8_ok h, ok_bind]
  rfl

theorem readU32_ok_val {d : Bytes} {i v : Nat} (h : readU32 d i = .ok v) :
    v = getU32 d i ∧ i + 3 < d.length := by
  unfold readU32 at h
  obtain ⟨b0, h0, h⟩ := seq_ok h
  obtain ⟨b1, h1, h⟩ := seq_ok h
  obtain ⟨b2, h2, h⟩ := seq_ok h
  obtain ⟨b3, h3, h⟩ := seq_ok h
  obtain ⟨hv0, _⟩ := readU8_ok_val h0
  obtain ⟨hv1, _⟩ := readU8_ok_val h1
  obtain ⟨hv2, _⟩ := readU8_ok_val h2
  obtain ⟨hv3, hl3⟩ := readU8_ok_val h3
  cases h
  subst hv0; subst hv1; subst hv2; subst hv3
  exact ⟨rfl, hl3⟩

theorem readU32_ok {d : Bytes} {i : Nat} (h : i + 3 < d.length) :
    readU32 d i = .ok (getU32 d i) := by
  unfold readU32
  rw [readU8_ok (by omega), ok_bind, readU8_ok (by omega), ok_bind,
    readU8_ok (by omega), ok_bind, readU8_ok h, ok_bind]
  rfl

theorem readBytesN_ok (d : Bytes) : ∀ (n off : Nat), off + n ≤ d.length →
    readBytesN d off n = .ok ((d.drop off).take n) := by
  intro n
  induction n with
  | zero =>
    intro off _
    simp [readBytesN, pure, Except.pure]
  | succ n ih =>
    intro off h
    unfold readBytesN
    rw [readU8_ok (by omega), ok_bind, ih (off + 1) (by omega), ok_bind]
    have hlt : off < d.length := by omega
    rw [List.drop_eq_getElem_cons hlt, List.take_succ_cons, getU8_eq_getElem hlt]
    rfl

/-- Reads within the truncated range agree with reads of the original
buffer. -/
theorem getU8_take {d : Bytes} {k i : Nat} (h : i < k) : getU8 (d.take k) i = getU8 d i := by
  unfold getU8
  rw [List.getD_eq_getElem?_getD, List.getD_eq_getElem?_getD, List.getElem?_take_of_lt h]

theorem getU16_take {d : Bytes} {k i : Nat} (h : i + 1 < k) :
    getU16 (d.take k) i = getU16 d i := by
  unfold getU16
  rw [getU8_take (by omega), getU8_take (by omega)]

theorem getU32_take {d : Bytes} {k i : Nat} (h : i + 3 < k) :
    getU32 (d.take k) i = getU32 d i := by
  unfold getU32
  rw [getU8_take (by omega), getU8_take (by omega), getU8_take (by omega), getU8_take (by omega)]

/-! ### Lemmas about the prefix matcher -/

/-- The matching loop succeeds exactly when some element of the prefix list
matches. -/
theorem pfxLoop_eq_true_iff (name : List Char) (ps : List (List Char)) :
    pfxLoop name ps = true ↔ ∃ p, p ∈ ps ∧ pfxMatches p name = true := by
  induction ps with
  | nil => simp [pfxLoop]
  | cons p ps ih =>
    constructor
    · intro h
      unfold pfxLoop at h
      by_cases hp : pfxMatches p name
      · exact ⟨p, List.mem_cons_self p ps, hp⟩
      · rw [if_neg (by simp [hp])] at h
        obtain ⟨q, hq, hm⟩ := ih.mp h
        exact ⟨q, List.mem_cons_of_mem p hq, hm⟩
    · rintro ⟨q, hq, hm⟩
      unfold pfxLoop
      rcases List.mem_cons.mp hq with rfl | hq'
      · rw [if_pos hm]
      · by_cases hp : pfxMatches p name
        · rw [if_pos hp]
        · rw [if_neg (by simp [hp])]
          exact ih.mpr ⟨q, hq', hm⟩

/-- One loop iteration matches exactly when the name strictly extends the
prefix and the character after the prefix is an uppercase ASCII letter
(when the prefix length equals the name length, the character tested is the
NUL terminator, which is not uppercase). -/
theorem pfxMatches_iff (p name : List Char) :
    pfxMatches p name = true ↔
      p.length < name.length ∧ name.take p.length = p ∧
        isAsciiUpper (charAt name p.length) = true := by
  unfold pfxMatches
  simp only [Bool.and_eq_true, decide_eq_true_eq, beq_iff_eq]
  constructor
  · rintro ⟨⟨hle, htake⟩, hup⟩
    rcases Nat.lt_or_ge p.length name.length with hlt | hge
    · exact ⟨hlt, htake, hup⟩
    · exfalso
      have hz : charAt name p.length = Char.ofNat 0 := by
        unfold charAt
        exact List.getD_eq_default _ _ hge
      rw [hz] at hup
      exact absurd hup (by decide)
  · rintro ⟨hlt, htake, hup⟩
    exact ⟨⟨Nat.le_of_lt hlt, htake⟩, hup⟩

/-! ### Claim theorems: the prefix matcher (C4, C5, C10) -/

/-- C4 counterexample: with `c_prefix = "Gdk"` (whose comma-split list
contains `"Gdk"`), `matches_gtype_name_prefix` returns `true` — not
`false` — for `"GdkButton"`, because the character after the prefix,
`B`, is an uppercase ASCII letter.  This falsifies the claim that the
matcher returns `false` for `"GdkButton"` exactly when the `c_prefix` list
contains `"Gdk"`. -/
theorem c4_counterexample :
    ("Gdk".toList ∈ splitComma "Gdk".toList) ∧
    matchesGtypeNamePfx "Gdk".toList "GdkButton".toList = true := by
  exact ⟨by decide, by rfl⟩

/-- C4 (amended): whenever the comma-split `c_prefix` list contains
`"Gdk"`, the matcher returns `true` both for `"GdkX11Cursor"` and for
`"GdkButton"` (in both names the character after `"Gdk"` is uppercase),
and the matcher returns `false` for the name `"Gdk"` when `c_prefix` is
`"G"`. -/
theorem c4_amended (cp : List Char) (h : "Gdk".toList ∈ splitComma cp) :
    matchesGtypeNamePfx cp "GdkX11Cursor".toList = true ∧
    matchesGtypeNamePfx cp "GdkButton".toList = true ∧
    matchesGtypeNamePfx "G".toList "Gdk".toList = false := by
  have hne : ¬ cp.length = 0 := by
    intro h0
    rw [List.length_eq_zero] at h0
    subst h0
    simp only [splitComma, List.mem_singleton] at h
    exact absurd h (by decide)
  refine ⟨?_, ?_, by rfl⟩
  · unfold matchesGtypeNamePfx
    rw [if_neg hne]
    exact (pfxLoop_eq_true_iff _ _).mpr ⟨_, h, by rfl⟩
  · unfold matchesGtypeNamePfx
    rw [if_neg hne]
    exact (pfxLoop_eq_true_iff _ _).mpr ⟨_, h, by rfl⟩

/-- C4 witness: the amended theorem applied at the concrete `c_prefix`
`"Gdk"`. -/
theorem c4_witness :
    ("Gdk".toList ∈ splitComma "Gdk".toList) ∧
    (matchesGtypeNamePfx "Gdk".toList "GdkX11Cursor".toList = true ∧
     matchesGtypeNamePfx "Gdk".toList "GdkButton".toList = true ∧
     matchesGtypeNamePfx "G".toList "Gdk".toList = false) :=
  ⟨by decide, c4_amended "Gdk".toList (by decide)⟩

/-- C5: with `c_prefix = "Gdk,Gtk"` the matcher returns `true` for
`"GdkWindow"` and `"GtkLabel"` and `false` for `"GnomeFoo"` and `"Gdk"`;
and in general (for a non-empty `c_prefix` string) a name matches iff some
element of the comma-split prefix list is a strict prefix of the name whose
following character is an uppercase ASCII letter. -/
theorem c5_prefix_rule :
    matchesGtypeNamePfx "Gdk,Gtk".toList "GdkWindow".toList = true ∧
    matchesGtypeNamePfx "Gdk,Gtk".toList "GtkLabel".toList = true ∧
    matchesGtypeNamePfx "Gdk,Gtk".toList "GnomeFoo".toList = false ∧
    matchesGtypeNamePfx "Gdk,Gtk".toList "Gdk".toList = false ∧
    ∀ cp name : List Char, cp ≠ [] →
      (matchesGtypeNamePfx cp name = true ↔
        ∃ p, p ∈ splitComma cp ∧ p.length < name.length ∧
          name.take p.length = p ∧ isAsciiUpper (charAt name p.length) = true) := by
  refine ⟨by rfl, by rfl, by rfl, by rfl, ?_⟩
  intro cp name hne
  unfold matchesGtypeNamePfx
  rw [if_neg (by simpa [List.length_eq_zero] using hne)]
  rw [pfxLoop_eq_true_iff]
  constructor
  · rintro ⟨p, hp, hm⟩
    obtain ⟨h1, h2, h3⟩ := (pfxMatches_iff p name).mp hm
    exact ⟨p, hp, h1, h2, h3⟩
  · rintro ⟨p, hp, h1, h2, h3⟩
    exact ⟨p, hp, (pfxMatches_iff p name).mpr ⟨h1, h2, h3⟩⟩

/-- C5 witness: the general part of the rule applied at the concrete
`c_prefix = "Gdk,Gtk"` and name `"GdkWindow"`. -/
theorem c5_witness :
    ("Gdk,Gtk".toList ≠ ([] : List Char)) ∧
    (matchesGtypeNamePfx "Gdk,Gtk".toList "GdkWindow".toList = true ↔
      ∃ p, p ∈ splitComma "Gdk,Gtk".toList ∧ p.length < "GdkWindow".toList.length ∧
        "GdkWindow".toList.take p.length = p ∧
        isAsciiUpper (charAt "GdkWindow".toList p.length) = true) :=
  ⟨by decide, c5_prefix_rule.2.2.2.2 _ _ (by decide)⟩

/-- C10: if `c_prefix` is non-empty and its comma-split list contains an
empty element, then every name whose first character is an uppercase ASCII
letter matches: the empty prefix trivially prefixes any name and only the
following-character test remains. -/
theorem c10_empty_element (cp name : List Char) (hne : cp ≠ [])
    (hmem : [] ∈ splitComma cp) (hup : isAsciiUpper (charAt name 0) = true) :
    matchesGtypeNamePfx cp name = true := by
  unfold matchesGtypeNamePfx
  rw [if_neg (by simpa [List.length_eq_zero] using hne)]
  apply (pfxLoop_eq_true_iff _ _).mpr
  refine ⟨[], hmem, ?_⟩
  unfold pfxMatches
  simp only [charAt] at hup ⊢
  rw [List.getD_eq_getElem?_getD] at hup
  simp [hup]

/-- C10 witness: `c_prefix = "Gdk,,Gtk"` (empty middle element) matches the
unrelated uppercase-initial name `"Zebra"`. -/
theorem c10_witness :
    ("Gdk,,Gtk".toList ≠ ([] : List Char)) ∧
    ([] ∈ splitComma "Gdk,,Gtk".toList) ∧
    isAsciiUpper (charAt "Zebra".toList 0) = true ∧
    matchesGtypeNamePfx "Gdk,,Gtk".toList "Zebra".toList = true :=
  ⟨by decide, by decide, by rfl,
    c10_empty_element "Gdk,,Gtk".toList "Zebra".toList (by decide) (by decide) (by rfl)⟩

/-! ### Lemmas about header validation -/

theorem error_bind {α β : Type} (e : TErr) (k : α → V β) :
    (Except.error e >>= k) = .error e := rfl

/-- A buffer shorter than a header fails immediately, without reading a
single byte. -/
theorem vhb_short {d : Bytes} {len : Nat} (h : len < 112) :
    validateHeaderBasic d len =
      .error ⟨.invalid, "The specified typelib length " ++ toString len ++ " is too short", []⟩ := by
  unfold validateHeaderBasic
  rw [guardE_bind, if_pos h]

/-- Over a buffer holding a full header, the monadic validator coincides
with its pure branch structure: every byte it reads is in range. -/
theorem vhb_eq_pure {d : Bytes} {len : Nat} (h : 112 ≤ d.length) :
    validateHeaderBasic d len = vhbPure d len := by
  by_cases h0 : len < 112
  · rw [vhb_short h0]
    unfold vhbPure
    rw [if_pos h0]
  · unfold validateHeaderBasic vhbPure
    simp only [readBytesN_ok d 16 0 (by omega),
      readU8_ok (show 16 < d.length by omega),
      readU16_ok (show 20 + 1 < d.length by omega),
      readU16_ok (show 22 + 1 < d.length by omega),
      readU32_ok (show 40 + 3 < d.length by omega),
      readU16_ok (show 60 + 1 < d.length by omega),
      readU16_ok (show 62 + 1 < d.length by omega),
      readU16_ok (show 64 + 1 < d.length by omega),
      readU16_ok (show 66 + 1 < d.length by omega),
      readU16_ok (show 68 + 1 < d.length by omega),
      readU16_ok (show 70 + 1 < d.length by omega),
      readU16_ok (show 72 + 1 < d.length by omega),
      readU16_ok (show 74 + 1 < d.length by omega),
      readU16_ok (show 76 + 1 < d.length by omega),
      readU16_ok (show 78 + 1 < d.length by omega),
      readU16_ok (show 80 + 1 < d.length by omega),
      readU16_ok (show 84 + 1 < d.length by omega),
      readU16_ok (show 86 + 1 < d.length by omega),
      readU16_ok (show 88 + 1 < d.length by omega),
      readU16_ok (show 90 + 1 < d.length by omega),
      readU16_ok (show 92 + 1 < d.length by omega),
      readU16_ok (show 94 + 1 < d.length by omega),
      readU32_ok (show 24 + 3 < d.length by omega),
      readU32_ok (show 32 + 3 < d.length by omega),
      readU32_ok (show 28 + 3 < d.length by omega),
      ok_bind, guardE_eq_ite, ite_error_bind, List.drop_zero]

/-- The conditions under which the pure header check succeeds (the ones the
claims need). -/
theorem vhbPure_ok_parts {d : Bytes} {len : Nat} (h : vhbPure d len = .ok ()) :
    ¬ len < 112 ∧ d.take 16 = GI_IR_MAGIC ∧ getU8 d 16 = 4 ∧
    ¬ getU16 d 20 < getU16 d 22 ∧ getU32 d 40 = len ∧
    isAligned (getU32 d 24) = true ∧ isAligned (getU32 d 32) = true ∧
    ¬ (getU32 d 32 = 0 ∧ 0 < getU32 d 28) := by
  unfold vhbPure at h
  split_ifs at h with h1 h2 h3 h4 h5 h6 h7 h8 h9 <;>
    first
      | exact ⟨h1, not_not.mp h2, not_not.mp h3, h4, not_not.mp h5, h7, h8, h9⟩
      | exact absurd h (by simp)

/-- When the header is intact but the self-reported size disagrees with the
buffer length, the pure header check fails exactly at the size check. -/
theorem vhbPure_fail_size {d : Bytes} {len : Nat} (h112 : ¬ len < 112)
    (hm : d.take 16 = GI_IR_MAGIC) (hv : getU8 d 16 = 4)
    (hc : ¬ getU16 d 20 < getU16 d 22) (hs : getU32 d 40 ≠ len) :
    vhbPure d len = .error ⟨.invalidHeader,
      "Typelib size " ++ toString (getU32 d 40) ++ " does not match " ++ toString len, []⟩ := by
  unfold vhbPure
  rw [if_neg h112, if_neg (by simp [hm]), if_neg (by simp [hv]), if_neg hc, if_pos hs]

theorem ctxDecorate_kind (s : String) (e : TErr) : (ctxDecorate s e).kind = e.kind := by
  unfold ctxDecorate
  split <;> rfl

/-- Success of the top-level validator means the three stages succeeded. -/
theorem giTypelibValidate_ok {d : Bytes} (h : giTypelibValidate d = .ok ()) :
    validateHeader d = .ok () ∧ validateDirectory d [] = .ok () ∧
      validateAttributes d [] = .ok () := by
  unfold giTypelibValidate at h
  split at h
  · exact absurd h (by simp)
  · rename_i u h1
    split at h
    · exact absurd h (by simp)
    · rename_i u2 h2
      split at h
      · exact absurd h (by simp)
      · rename_i u3 h3
        cases u; cases u2; cases u3
        exact ⟨h1, h2, h3⟩

theorem validateHeader_ok_basic {d : Bytes} (h : validateHeader d = .ok ()) :
    validateHeaderBasic d d.length = .ok () := by
  unfold validateHeader at h
  obtain ⟨u, h1, -⟩ := seq_ok h
  cases u
  exact h1

theorem newFromBytes_ok_basic {d : Bytes} {tl : Bytes}
    (h : giTypelibNewFromBytes d = .ok tl) : validateHeaderBasic d d.length = .ok () := by
  unfold giTypelibNewFromBytes at h
  obtain ⟨u, h1, -⟩ := seq_ok h
  cases u
  exact h1

theorem vhb_ok_112 {d : Bytes} {len : Nat} (h : validateHeaderBasic d len = .ok ()) :
    ¬ len < 112 := by
  intro hc
  rw [vhb_short hc] at h
  exact absurd h (by simp)

/-! ### Claim theorems: truncation safety and the attribute check (C1, C3) -/

/-- C1: if a buffer `b` validates, then for every truncation `b.take k`
with `k < b.length` both `gi_typelib_new_from_bytes` and
`gi_typelib_validate` fail — for `k < 112` with the too-short header error
and for `k ≥ 112` with the size-mismatch error, because the surviving
header still reports `size = b.length ≠ k` — and neither operation
performs an out-of-bounds read (no `oobRead` error, the marker of the model for
a byte access at an index `≥ k`). -/
theorem c1_truncation_safe (b : Bytes) (hv : giTypelibValidate b = .ok ())
    (k : Nat) (hk : k < b.length) :
    (k < 112 →
      giTypelibNewFromBytes (b.take k) =
        .error ⟨.invalid, "The specified typelib length " ++ toString k ++ " is too short", []⟩ ∧
      ∃ e, giTypelibValidate (b.take k) = .error e ∧ e.kind = .invalid ∧ e.kind ≠ .oobRead) ∧
    (112 ≤ k →
      giTypelibNewFromBytes (b.take k) =
        .error ⟨.invalidHeader,
          "Typelib size " ++ toString b.length ++ " does not match " ++ toString k, []⟩ ∧
      ∃ e, giTypelibValidate (b.take k) = .error e ∧ e.kind = .invalidHeader ∧
        e.kind ≠ .oobRead) := by
  have hbasic : validateHeaderBasic b b.length = .ok () :=
    validateHeader_ok_basic (giTypelibValidate_ok hv).1
  have h112b : ¬ b.length < 112 := vhb_ok_112 hbasic
  have hparts := vhbPure_ok_parts
    (show vhbPure b b.length = .ok () by rw [← vhb_eq_pure (by omega)]; exact hbasic)
  have htl : (b.take k).length = k := by
    rw [List.length_take]
    omega
  constructor
  · intro hklt
    have herr : validateHeaderBasic (b.take k) (b.take k).length =
        .error ⟨.invalid, "The specified typelib length " ++ toString k ++ " is too short", []⟩ := by
      rw [htl, vhb_short hklt]
    constructor
    · unfold giTypelibNewFromBytes
      rw [herr, error_bind]
    · have hhdr : validateHeader (b.take k) =
          .error ⟨.invalid, "The specified typelib length " ++ toString k ++ " is too short", []⟩ := by
        unfold validateHeader
        rw [herr, error_bind]
      refine ⟨ctxDecorate "In header"
        ⟨.invalid, "The specified typelib length " ++ toString k ++ " is too short", []⟩, ?_, ?_, ?_⟩
      · unfold giTypelibValidate
        rw [hhdr]
      · rw [ctxDecorate_kind]
      · rw [ctxDecorate_kind]
        intro hh
        exact ErrKind.noConfusion hh
  · intro hkge
    have h112t : 112 ≤ (b.take k).length := by omega
    have hsize : getU32 (b.take k) 40 = b.length := by
      rw [getU32_take (by omega)]
      exact hparts.2.2.2.2.1
    have herr : validateHeaderBasic (b.take k) (b.take k).length =
        .error ⟨.invalidHeader,
          "Typelib size " ++ toString b.length ++ " does not match " ++ toString k, []⟩ := by
      rw [htl, vhb_eq_pure h112t, ← hsize]
      apply vhbPure_fail_size
      · omega
      · rw [List.take_take, Nat.min_eq_left (by omega)]
        exact hparts.2.1
      · rw [getU8_take (by omega)]
        exact hparts.2.2.1
      · rw [getU16_take (by omega), getU16_take (by omega)]
        exact hparts.2.2.2.1
      · rw [hsize]
        omega
    constructor
    · unfold giTypelibNewFromBytes
      rw [herr, error_bind]
    · have hhdr : validateHeader (b.take k) =
          .error ⟨.invalidHeader,
            "Typelib size " ++ toString b.length ++ " does not match " ++ toString k, []⟩ := by
        unfold validateHeader
        rw [herr, error_bind]
      refine ⟨ctxDecorate "In header"
        ⟨.invalidHeader,
          "Typelib size " ++ toString b.length ++ " does not match " ++ toString k, []⟩, ?_, ?_, ?_⟩
      · unfold giTypelibValidate
        rw [hhdr]
      · rw [ctxDecorate_kind]
      · rw [ctxDecorate_kind]
        intro hh
        exact ErrKind.noConfusion hh

/-- C1 witness: the concrete validating typelib `tlGtypeStructForeign`
truncated at `k = 150`. -/
theorem c1_witness :
    giTypelibValidate tlGtypeStructForeign = .ok () ∧ 150 < tlGtypeStructForeign.length ∧
    (112 ≤ 150 →
      giTypelibNewFromBytes (tlGtypeStructForeign.take 150) =
        .error ⟨.invalidHeader,
          "Typelib size " ++ toString tlGtypeStructForeign.length ++ " does not match " ++
            toString 150, []⟩ ∧
      ∃ e, giTypelibValidate (tlGtypeStructForeign.take 150) = .error e ∧
        e.kind = .invalidHeader ∧ e.kind ≠ .oobRead) :=
  ⟨by rfl, by decide, (c1_truncation_safe tlGtypeStructForeign (by rfl) 150 (by decide)).2⟩

/-- C3 counterexample: the 112-byte buffer `hdrAttrsNonzero` with
`attributes = 4` and `n_attributes = 0` is accepted by
`gi_typelib_new_from_bytes`, yet `attributes == 0 ↔ n_attributes == 0`
fails for it: the basic header check only rejects
`attributes == 0 ∧ n_attributes > 0`. -/
theorem c3_counterexample :
    giTypelibNewFromBytes hdrAttrsNonzero = .ok hdrAttrsNonzero ∧
    getU32 hdrAttrsNonzero 32 = 4 ∧ getU32 hdrAttrsNonzero 28 = 0 ∧
    ¬ (getU32 hdrAttrsNonzero 32 = 0 ↔ getU32 hdrAttrsNonzero 28 = 0) := by
  refine ⟨by rfl, by rfl, by rfl, ?_⟩
  intro hiff
  have h4 : getU32 hdrAttrsNonzero 32 = 4 := by rfl
  have h0 : getU32 hdrAttrsNonzero 28 = 0 := by rfl
  have := hiff.mpr h0
  rw [h4] at this
  exact absurd this (by decide)

/-- C3 (amended): every buffer accepted by `gi_typelib_new_from_bytes`
satisfies the one checked direction: if `header.attributes = 0` then
`header.n_attributes = 0`.  The other direction of the claimed equivalence
is not checked (see the counterexample). -/
theorem c3_amended (b tl : Bytes) (h : giTypelibNewFromBytes b = .ok tl) :
    getU32 b 32 = 0 → getU32 b 28 = 0 := by
  have hbasic := newFromBytes_ok_basic h
  have h112 : ¬ b.length < 112 := vhb_ok_112 hbasic
  rw [vhb_eq_pure (by omega)] at hbasic
  have hattr := (vhbPure_ok_parts hbasic).2.2.2.2.2.2.2
  intro h0
  by_contra hn
  exact hattr ⟨h0, Nat.pos_of_ne_zero hn⟩

/-- C3 witness: the amended implication applied to the accepted buffer
`tlGtypeStructForeign` (whose `attributes` and `n_attributes` are both 0). -/
theorem c3_witness :
    giTypelibNewFromBytes tlGtypeStructForeign = .ok tlGtypeStructForeign ∧
    (getU32 tlGtypeStructForeign 32 = 0 → getU32 tlGtypeStructForeign 28 = 0) :=
  ⟨by rfl, c3_amended tlGtypeStructForeign tlGtypeStructForeign (by rfl)⟩

/-! ### Claim theorems: signal run flags (C8) -/

/-- C8: every signal blob that passes validation has exactly one of
`run_first` (flag bit 1), `run_last` (bit 2), `run_cleanup` (bit 3) set;
and the concrete typelib `tlSignalBothRun`, whose signal has both
`run_first` and `run_last` set, makes `gi_typelib_validate` fail with the
`INVALID_BLOB` error `"Invalid signal run flags"` (context-decorated by the
top level).  `tlSignalRunFirst`, identical except for a single run flag,
validates. -/
theorem c8_signal_run_flags :
    (∀ (d : Bytes) (st : List String) (off co : Nat),
      validateSignalBlob d st off co = .ok () →
      getU16 d off / 2 % 2 + getU16 d off / 4 % 2 + getU16 d off / 8 % 2 = 1) ∧
    giTypelibValidate tlSignalBothRun =
      .error ⟨.invalidBlob, "In directory (Context: O)): Invalid signal run flags", ["O"]⟩ ∧
    giTypelibValidate tlSignalRunFirst = .ok () := by
  refine ⟨?_, by rfl, by rfl⟩
  intro d st off co h
  unfold validateSignalBlob at h
  obtain ⟨u1, hg1, h⟩ := seq_ok h
  obtain ⟨nameOff, hn, h⟩ := seq_ok h
  obtain ⟨u2, hvn, h⟩ := seq_ok h
  obtain ⟨flags, hf, h⟩ := seq_ok h
  obtain ⟨u3, hg2, h⟩ := seq_ok h
  have hone := guardE_ok hg2
  obtain ⟨hfv, -⟩ := readU16_ok_val hf
  subst hfv
  omega

/-- C8 witness: the general statement applied to the valid signal blob of
`tlSignalRunFirst` at offset 184 (container object at 124). -/
theorem c8_witness :
    validateSignalBlob tlSignalRunFirst [] 184 124 = .ok () ∧
    getU16 tlSignalRunFirst 184 / 2 % 2 + getU16 tlSignalRunFirst 184 / 4 % 2 +
      getU16 tlSignalRunFirst 184 / 8 % 2 = 1 :=
  ⟨by rfl, c8_signal_run_flags.1 tlSignalRunFirst [] 184 124 (by rfl)⟩

/-! ### Claim theorems: constructor return types (C7) -/

theorem getTypeBlob_ok {d : Bytes} {st : List String} {v r : Nat}
    (h : getTypeBlob d st v = .ok r) : r = v ∧ v ≠ 0 ∧ stbReserved v ≠ 0 := by
  unfold getTypeBlob at h
  obtain ⟨u1, hg1, h⟩ := seq_ok h
  obtain ⟨u2, hg2, h⟩ := seq_ok h
  obtain ⟨u3, hg3, h⟩ := seq_ok h
  cases h
  exact ⟨rfl, guardE_ok hg1, guardE_ok hg2⟩

theorem returnTypeFromSignature_ok {d : Bytes} {st : List String} {off r : Nat}
    (h : returnTypeFromSignature d st off = .ok r) : r = getU32 d off ∧ r ≠ 0 := by
  unfold returnTypeFromSignature at h
  obtain ⟨u1, hg1, h⟩ := seq_ok h
  obtain ⟨rt, hrt, h⟩ := seq_ok h
  obtain ⟨u2, hg2, h⟩ := seq_ok h
  cases h
  obtain ⟨hv, -⟩ := readU32_ok_val hrt
  subst hv
  exact ⟨rfl, guardE_ok hg2⟩

/-- C7 counterexample: in the concrete typelib `tlCtorInt32` the single
object method at offset 184 is a constructor (flag bit 3) whose signature
carries the basic simple type int32 as return type (tag 6, low 24 bits zero), and
`gi_typelib_validate` fails — but inside `get_type_blob`, with the
`GI_TYPELIB_ERROR_INVALID` message `"Expected non-basic type but got 6"`,
not with the `"Invalid return type ... for constructor ..."` message the
claim states (that message is only reachable for non-basic return types
whose complex tag is not `interface`). -/
theorem c7_counterexample :
    getU16 tlCtorInt32 (184 + 2) / 8 % 2 = 1 ∧
    getU32 tlCtorInt32 (getU32 tlCtorInt32 (184 + 12)) = 805306368 ∧
    stbReserved 805306368 = 0 ∧ stbTag 805306368 = 6 ∧
    giTypelibValidate tlCtorInt32 =
      .error ⟨.invalid, "In directory (Context: new/O)): Expected non-basic type but got 6",
        ["new", "O"]⟩ ∧
    ¬ (giTypelibValidate tlCtorInt32 =
      .error ⟨.invalid,
        "In directory (Context: new/O)): Invalid return type \x27int32\x27 for constructor \x27t_new\x27",
        ["new", "O"]⟩) := by
  refine ⟨by rfl, by rfl, by rfl, by rfl, by rfl, ?_⟩
  intro hc
  have h1 : giTypelibValidate tlCtorInt32 =
      .error ⟨.invalid, "In directory (Context: new/O)): Expected non-basic type but got 6",
        ["new", "O"]⟩ := by rfl
  rw [h1] at hc
  have := Except.error.inj hc
  have hmsg := congrArg TErr.msg this
  exact absurd hmsg (by decide)

/-- C7 (amended): for every function blob validated in an object or
interface container (container type 7 or 8) with the constructor flag set,
the return type union value of the signature is non-zero and non-basic —
i.e. a reference to a complex type blob — and the tag of that blob is
`interface` (16).  A constructor whose return type is basic (such as int32)
still fails validation, but inside `get_type_blob` with
`"Expected non-basic type but got <tag>"` (see the counterexample). -/
theorem c7_constructor_return (d : Bytes) (st : List String) (off containerType : Nat)
    (hct : containerType = 7 ∨ containerType = 8)
    (h : validateFunctionBlob d st off containerType = .ok ())
    (hctor : getU16 d (off + 2) / 8 % 2 = 1) :
    getU32 d (getU32 d (off + 12)) ≠ 0 ∧
    stbReserved (getU32 d (getU32 d (off + 12))) ≠ 0 ∧
    itbTag (getU8 d (getU32 d (getU32 d (off + 12)))) = 16 := by
  unfold validateFunctionBlob at h
  obtain ⟨u1, hg1, h⟩ := seq_ok h
  obtain ⟨bt, hbt, h⟩ := seq_ok h
  obtain ⟨u2, hg2, h⟩ := seq_ok h
  obtain ⟨nameOff, hno, h⟩ := seq_ok h
  obtain ⟨u3, hvn1, h⟩ := seq_ok h
  obtain ⟨symOff, hso, h⟩ := seq_ok h
  obtain ⟨u4, hvn2, h⟩ := seq_ok h
  obtain ⟨flags, hfl, h⟩ := seq_ok h
  obtain ⟨hflv, -⟩ := readU16_ok_val hfl
  subst hflv
  obtain ⟨u5, hw1, h⟩ := seq_ok h
  obtain ⟨u6, hw2, h⟩ := seq_ok h
  obtain ⟨u7, hw3, h⟩ := seq_ok h
  obtain ⟨sig, hsig, h⟩ := seq_ok h
  obtain ⟨hsigv, -⟩ := readU32_ok_val hsig
  subst hsigv
  obtain ⟨u8, hvs, h⟩ := seq_ok h
  rw [whenE_pos hctor] at h
  obtain ⟨retType, hrt, h⟩ := seq_ok h
  obtain ⟨hrtv, hrtne⟩ := returnTypeFromSignature_ok hrt
  obtain ⟨blobOff, hbo, h⟩ := seq_ok h
  obtain ⟨hbov, -, hres⟩ := getTypeBlob_ok hbo
  obtain ⟨b0, hb0, h⟩ := seq_ok h
  obtain ⟨hb0v, -⟩ := readU8_ok_val hb0
  have hlast := guardE_ok h
  subst hrtv
  subst hbov
  subst hb0v
  refine ⟨hrtne, hres, ?_⟩
  by_contra hne
  exact hlast ⟨hne, hct⟩

/-- C7 witness: the amended statement applied to the valid
interface-returning constructor of `tlCtorIface` (method at offset 184,
whose full typelib also validates). -/
theorem c7_witness :
    ((7 : Nat) = 7 ∨ (7 : Nat) = 8) ∧
    validateFunctionBlob tlCtorIface [] 184 7 = .ok () ∧
    getU16 tlCtorIface (184 + 2) / 8 % 2 = 1 ∧
    giTypelibValidate tlCtorIface = .ok () ∧
    (getU32 tlCtorIface (getU32 tlCtorIface (184 + 12)) ≠ 0 ∧
     stbReserved (getU32 tlCtorIface (getU32 tlCtorIface (184 + 12))) ≠ 0 ∧
     itbTag (getU8 tlCtorIface (getU32 tlCtorIface (getU32 tlCtorIface (184 + 12)))) = 16) :=
  ⟨Or.inl rfl, by rfl, by rfl, by rfl,
    c7_constructor_return tlCtorIface [] 184 7 (Or.inl rfl) (by rfl) (by rfl)⟩

/-! ### Claim theorems: the gtype_struct entry of an object (C2) -/

/-- C2 counterexample: `tlGtypeStructForeign` passes full validation; its
single local entry is the object blob at offset 136, whose `gtype_struct`
field is 2 — and directory entry 2 is *foreign* (`local = false`,
`blob_type` 0), not a local struct.  The object validator only rejects a
`gtype_struct` entry that is local with a blob type other than struct
(gitypelib.c:1711), so a foreign entry of any kind is accepted. -/
theorem c2_counterexample :
    giTypelibValidate tlGtypeStructForeign = .ok () ∧
    giTypelibGetDirEntry tlGtypeStructForeign 1 = .ok ⟨7, true, 198, 136⟩ ∧
    getU16 tlGtypeStructForeign (136 + 18) = 2 ∧
    getDirEntryChecked tlGtypeStructForeign [] 2 = .ok ⟨0, false, 200, 202⟩ ∧
    (⟨0, false, 200, 202⟩ : DirEntryR).isLocal = false ∧
    (⟨0, false, 200, 202⟩ : DirEntryR).blobType ≠ 3 :=
  ⟨by rfl, by rfl, by rfl, by rfl, by rfl, by decide⟩

/-- C2 (amended): when an object blob passes validation and its
`gtype_struct` field is non-zero, the referenced directory entry exists and
— *if it is local* — has blob type struct (3); a local entry of any other
blob type fails validation, but a foreign entry of any blob type is
accepted (see the counterexample). -/
theorem c2_gtype_struct (d : Bytes) (st : List String) (off : Nat)
    (h : validateObjectBlob d st off = .ok ())
    (hgs : getU16 d (off + 18) ≠ 0) :
    ∃ e, getDirEntryChecked d st (getU16 d (off + 18)) = .ok e ∧
      (e.isLocal = true → e.blobType = 3) := by
  unfold validateObjectBlob at h
  obtain ⟨u1, hg1, h⟩ := seq_ok h
  obtain ⟨bt, hbt, h⟩ := seq_ok h
  obtain ⟨u2, hg2, h⟩ := seq_ok h
  obtain ⟨gtName, hgn, h⟩ := seq_ok h
  obtain ⟨u3, hv1, h⟩ := seq_ok h
  obtain ⟨gtInit, hgi, h⟩ := seq_ok h
  obtain ⟨u4, hv2, h⟩ := seq_ok h
  obtain ⟨nameOff, hno, h⟩ := seq_ok h
  obtain ⟨u5, hv3, h⟩ := seq_ok h
  obtain ⟨nEntries, hne, h⟩ := seq_ok h
  obtain ⟨parent, hpar, h⟩ := seq_ok h
  obtain ⟨u6, hg3, h⟩ := seq_ok h
  obtain ⟨u7, hwp, h⟩ := seq_ok h
  obtain ⟨gs, hgsr, h⟩ := seq_ok h
  obtain ⟨hgsv, -⟩ := readU16_ok_val hgsr
  subst hgsv
  obtain ⟨u8, hwgs, h⟩ := seq_ok h
  rw [whenE_pos hgs] at hwgs
  obtain ⟨e, hget, hwgs⟩ := seq_ok hwgs
  have hguard := guardE_ok hwgs
  refine ⟨e, hget, ?_⟩
  intro hloc
  by_contra hbt3
  exact hguard ⟨hbt3, hloc⟩

/-- C2 witness: the amended statement applied to the object of
`tlGtypeStructForeign` at offset 136 (whose `gtype_struct` is the foreign entry 2). -/
theorem c2_witness :
    validateObjectBlob tlGtypeStructForeign [] 136 = .ok () ∧
    getU16 tlGtypeStructForeign (136 + 18) ≠ 0 ∧
    ∃ e, getDirEntryChecked tlGtypeStructForeign [] (getU16 tlGtypeStructForeign (136 + 18)) =
        .ok e ∧ (e.isLocal = true → e.blobType = 3) :=
  ⟨by rfl, by decide, c2_gtype_struct tlGtypeStructForeign [] 136 (by rfl) (by decide)⟩

/-! ### Claim theorems: the directory local/foreign split (C9) -/

/-- Success of the directory loop implies success of every entry check. -/
theorem dirLoop_ok {d : Bytes} {st : List String} {nLocal : Nat} :
    ∀ (r i : Nat), dirLoop d st nLocal i r = .ok () →
      ∀ k, k < r → dirEntryCheck d st nLocal (i + k) = .ok () := by
  intro r
  induction r with
  | zero =>
    intro i _ k hk
    omega
  | succ r ih =>
    intro i h k hk
    unfold dirLoop at h
    obtain ⟨u, h1, h2⟩ := seq_ok h
    rcases Nat.eq_zero_or_pos k with rfl | hpos
    · cases u
      simpa using h1
    · have hrec := ih (i + 1) h2 (k - 1) (by omega)
      rw [show i + 1 + (k - 1) = i + k by omega] at hrec
      exact hrec

/-- Success of one directory-entry check implies the local/foreign split
facts for that entry. -/
theorem dirEntryCheck_ok {d : Bytes} {st : List String} {nLocal i : Nat}
    (h : dirEntryCheck d st nLocal i = .ok ()) :
    ∃ e, giTypelibGetDirEntry d (i + 1) = .ok e ∧
      (i < nLocal → e.isLocal = true ∧ isAligned e.offset = true) ∧
      (¬ i < nLocal → e.isLocal = false ∧ validateName d st "namespace" e.offset = .ok ()) := by
  unfold dirEntryCheck at h
  obtain ⟨e, hget, h⟩ := seq_ok h
  obtain ⟨u1, hvn, h⟩ := seq_ok h
  obtain ⟨u2, hg1, h⟩ := seq_ok h
  refine ⟨e, hget, ?_, ?_⟩
  · intro hi
    rw [iteV_pos hi] at h
    obtain ⟨u3, hgl, h⟩ := seq_ok h
    obtain ⟨u4, hga, h⟩ := seq_ok h
    have h1 := guardE_ok hgl
    have h2 := guardE_ok hga
    constructor
    · cases hl : e.isLocal
      · exact absurd hl h1
      · rfl
    · exact not_not.mp h2
  · intro hi
    rw [iteV_neg hi] at h
    obtain ⟨u3, hgl, h⟩ := seq_ok h
    have h1 := guardE_ok hgl
    constructor
    · cases hl : e.isLocal
      · rfl
      · exact absurd hl h1
    · exact h

/-- C9: in a typelib accepted by `gi_typelib_validate`, every directory
entry with 1-based index `i ≤ n_local_entries` is local with a 4-byte
aligned blob offset, and every entry with `i > n_local_entries` is
non-local with its offset field validating as a NUL-terminated identifier
(the foreign namespace name).  The contrapositive — an entry violating its
side makes validation fail — is immediate from this implication. -/
theorem c9_directory_split (d : Bytes) (h : giTypelibValidate d = .ok ())
    (i : Nat) (h1 : 1 ≤ i) (h2 : i ≤ getU16 d 20) :
    ∃ e, giTypelibGetDirEntry d i = .ok e ∧
      (i ≤ getU16 d 22 → e.isLocal = true ∧ isAligned e.offset = true) ∧
      (getU16 d 22 < i → e.isLocal = false ∧ validateName d [] "namespace" e.offset = .ok ()) := by
  have hdir := (giTypelibValidate_ok h).2.1
  unfold validateDirectory at hdir
  obtain ⟨nE, hne, hdir⟩ := seq_ok hdir
  obtain ⟨dir, hdread, hdir⟩ := seq_ok hdir
  obtain ⟨nL, hnl, hdir⟩ := seq_ok hdir
  obtain ⟨u, hg, hdir⟩ := seq_ok hdir
  obtain ⟨hnev, -⟩ := readU16_ok_val hne
  obtain ⟨hnlv, -⟩ := readU16_ok_val hnl
  subst hnev
  subst hnlv
  have hloop := dirLoop_ok _ _ hdir (i - 1) (by omega)
  rw [show 0 + (i - 1) = i - 1 by omega] at hloop
  obtain ⟨e, hget, hlocal, hforeign⟩ := dirEntryCheck_ok hloop
  rw [show i - 1 + 1 = i by omega] at hget
  refine ⟨e, hget, ?_, ?_⟩
  · intro hi
    exact hlocal (by omega)
  · intro hi
    exact hforeign (by omega)

/-- C9 witness: the split applied to the foreign entry 2 of
`tlGtypeStructForeign`. -/
theorem c9_witness :
    giTypelibValidate tlGtypeStructForeign = .ok () ∧ 1 ≤ 2 ∧
    2 ≤ getU16 tlGtypeStructForeign 20 ∧
    ∃ e, giTypelibGetDirEntry tlGtypeStructForeign 2 = .ok e ∧
      (2 ≤ getU16 tlGtypeStructForeign 22 → e.isLocal = true ∧ isAligned e.offset = true) ∧
      (getU16 tlGtypeStructForeign 22 < 2 → e.isLocal = false ∧
        validateName tlGtypeStructForeign [] "namespace" e.offset = .ok ()) :=
  ⟨by rfl, by decide, by decide,
    c9_directory_split tlGtypeStructForeign (by rfl) 2 (by decide) (by decide)⟩

/-! ### Claim theorems: field callbacks of an object (C6) -/

/-- The validating field walk computes the same final offset and embedded
counter as the pure counting walk. -/
theorem walkFields_count {d : Bytes} {st : List String} :
    ∀ (n off acc endOff cnt : Nat), walkFields d st n off acc = .ok (endOff, cnt) →
      fieldCbCount d n off acc = some (endOff, cnt) := by
  intro n
  induction n with
  | zero =>
    intro off acc endOff cnt h
    unfold walkFields at h
    cases h
    rfl
  | succ n ih =>
    intro off acc endOff cnt h
    unfold walkFields at h
    obtain ⟨u1, hval, h⟩ := seq_ok h
    obtain ⟨fl, hfl, h⟩ := seq_ok h
    have hg := readU8_ok_get? hfl
    unfold fieldCbCount
    rw [hg]
    by_cases hemb : fl / 4 % 2 = 1
    · rw [if_pos hemb] at h
      show (if fl / 4 % 2 = 1 then fieldCbCount d n (m32 (m32 (off + 16) + 12)) (acc + 1)
        else fieldCbCount d n (m32 (off + 16)) acc) = some (endOff, cnt)
      rw [if_pos hemb]
      exact ih _ _ _ _ h
    · rw [if_neg hemb] at h
      show (if fl / 4 % 2 = 1 then fieldCbCount d n (m32 (m32 (off + 16) + 12)) (acc + 1)
        else fieldCbCount d n (m32 (off + 16)) acc) = some (endOff, cnt)
      rw [if_neg hemb]
      exact ih _ _ _ _ h

/-- C6: for every object blob that passes validation, the walk over its
`n_fields` field records (starting right after the padded interface list)
counts exactly `n_field_callbacks` fields with the `has_embedded_type`
flag; and in the concrete typelib `tlFieldCbBad` — one embedded-callback
field but `n_field_callbacks = 0` — `gi_typelib_validate` fails with the
`INVALID_BLOB` error `"Incorrect number of field callbacks; expected 0,
got 1"` (context-decorated), while the corrected `tlFieldCbOk` validates. -/
theorem c6_field_callbacks :
    (∀ (d : Bytes) (st : List String) (off : Nat),
      validateObjectBlob d st off = .ok () →
      ∃ ifEnd endOff,
        validateIfacesN d st (getU16 d 20) (getU16 d (off + 20)) (m32 (off + 60)) = .ok ifEnd ∧
        fieldCbCount d (getU16 d (off + 22))
          (m32 (ifEnd + 2 * (getU16 d (off + 20) % 2))) 0 =
          some (endOff, getU16 d (off + 34))) ∧
    giTypelibValidate tlFieldCbOk = .ok () ∧
    giTypelibValidate tlFieldCbBad = .error ⟨.invalidBlob,
      "In directory (Context: O)): Incorrect number of field callbacks; expected 0, got 1",
      ["O"]⟩ := by
  refine ⟨?_, by rfl, by rfl⟩
  intro d st off h
  unfold validateObjectBlob at h
  obtain ⟨u1, hg1, h⟩ := seq_ok h
  obtain ⟨bt, hbt, h⟩ := seq_ok h
  obtain ⟨u2, hg2, h⟩ := seq_ok h
  obtain ⟨gtName, hgn, h⟩ := seq_ok h
  obtain ⟨u3, hv1, h⟩ := seq_ok h
  obtain ⟨gtInit, hgi, h⟩ := seq_ok h
  obtain ⟨u4, hv2, h⟩ := seq_ok h
  obtain ⟨nameOff, hno, h⟩ := seq_ok h
  obtain ⟨u5, hv3, h⟩ := seq_ok h
  obtain ⟨nEntries, hne, h⟩ := seq_ok h
  obtain ⟨parent, hpar, h⟩ := seq_ok h
  obtain ⟨u6, hg3, h⟩ := seq_ok h
  obtain ⟨u7, hwp, h⟩ := seq_ok h
  obtain ⟨gs, hgsr, h⟩ := seq_ok h
  obtain ⟨u8, hwgs, h⟩ := seq_ok h
  obtain ⟨nIfaces, hni, h⟩ := seq_ok h
  obtain ⟨nFields, hnf, h⟩ := seq_ok h
  obtain ⟨nProps, hnp, h⟩ := seq_ok h
  obtain ⟨nMethods, hnm, h⟩ := seq_ok h
  obtain ⟨nSignals, hns, h⟩ := seq_ok h
  obtain ⟨nVfuncs, hnv, h⟩ := seq_ok h
  obtain ⟨nConsts, hnc, h⟩ := seq_ok h
  obtain ⟨nFieldCbs, hnfc, h⟩ := seq_ok h
  obtain ⟨u9, hgb, h⟩ := seq_ok h
  obtain ⟨ifEnd, hif, h⟩ := seq_ok h
  obtain ⟨r, hwf, h⟩ := seq_ok h
  obtain ⟨u10, hgc, h⟩ := seq_ok h
  have hcount := guardE_ok hgc
  obtain ⟨hnev, -⟩ := readU16_ok_val hne
  obtain ⟨hniv, -⟩ := readU16_ok_val hni
  obtain ⟨hnfv, -⟩ := readU16_ok_val hnf
  obtain ⟨hnfcv, -⟩ := readU16_ok_val hnfc
  subst hnev
  subst hniv
  subst hnfv
  subst hnfcv
  obtain ⟨endOff, cnt⟩ := r
  have hcnt : cnt = getU16 d (off + 34) := by omega
  subst hcnt
  exact ⟨ifEnd, endOff, hif, walkFields_count _ _ _ _ _ hwf⟩

/-- C6 witness: the count statement applied to the validating object of
`tlFieldCbOk` at offset 124. -/
theorem c6_witness :
    validateObjectBlob tlFieldCbOk [] 124 = .ok () ∧
    ∃ ifEnd endOff,
      validateIfacesN tlFieldCbOk [] (getU16 tlFieldCbOk 20) (getU16 tlFieldCbOk (124 + 20))
        (m32 (124 + 60)) = .ok ifEnd ∧
      fieldCbCount tlFieldCbOk (getU16 tlFieldCbOk (124 + 22))
        (m32 (ifEnd + 2 * (getU16 tlFieldCbOk (124 + 20) % 2))) 0 =
        some (endOff, getU16 tlFieldCbOk (124 + 34)) :=
  ⟨by rfl, (c6_field_callbacks.1) tlFieldCbOk [] 124 (by rfl)⟩

end GITL
